import Mathlib

/-!
Verification of the dataplug-http streaming readers.

This development shallowly embeds the two stream readers of the repository:

* `HttpGetReader`   — single-request streamer (`src/httpGetReader.ts`);
* `PagedHttpGetReader` — pagination wrapper (`src/pagedHttpGetReader.ts`).

The embedding follows the TypeScript sources line by line.  Each event
handler of the readers becomes a pure state transformer over an explicit
machine state; the data pushed to the consumer and the errors emitted on
the stream are recorded in an `output` trace.  JavaScript values returned
by a response-classification policy are modelled by their
truthiness-relevant shape (`JsValue`), and `Promise.resolve` by the
`Resolution` a value eventually reaches.  Query/header objects are plain
association lists; for aliasing facts (deep copies) a small heap model
with numeric references is used, mirroring `_.cloneDeep`.
-/

namespace Dataplug

/-- A JavaScript mapping object (query parameters or headers). -/
abbrev Obj := List (String × String)

/-- The response metadata consulted by a classification policy. -/
structure Response where
  statusCode : Nat
  statusMessage : Option String
  method : String
deriving Repr, DecidableEq

/-- What `Promise.resolve` of a value eventually does: fulfill with a value
of some truthiness, or reject with an error. -/
inductive Resolution where
  | fulfilled (truthy : Bool)
  | rejected (e : String)
deriving Repr, DecidableEq

/-- The truthiness-relevant shape of a JavaScript value returned by a
response handler: a boolean, a thenable (a promise: an object, hence
synchronously truthy, carrying its own resolution), or a plain non-boolean
non-thenable value (which `Promise.resolve` fulfills with itself). -/
inductive JsValue where
  | jsBool (b : Bool)
  | thenable (res : Resolution)
  | plain (truthy : Bool)
deriving Repr, DecidableEq

/-- The test `_.isBoolean(v) && v` used by `PagedHttpGetReader`. -/
def JsValue.isBooleanTrue : JsValue → Bool
  | .jsBool b => b
  | _ => false

/-- JavaScript truthiness of the value itself (`if (v)`). -/
def JsValue.syncTruthy : JsValue → Bool
  | .jsBool b => b
  | .thenable _ => true
  | .plain t => t

/-- The resolution reached by `Promise.resolve(v)`. -/
def JsValue.resolution : JsValue → Resolution
  | .jsBool b => .fulfilled b
  | .thenable r => r
  | .plain t => .fulfilled t

/-- Outcome of invoking a response handler: it throws synchronously or
returns a value. -/
inductive HandlerOutcome where
  | throws (e : String)
  | returns (v : JsValue)

/-- The JavaScript expression `response.statusMessage || 'no details'`
(absent and empty status messages are falsy). -/
def statusDetails : Option String → String
  | some s => if s = "" then "no details" else s
  | none => "no details"

/-- From `HttpGetReader.defaultResponseHandler`: status 200 or 404 returns
`true`, status 429 returns `false`, any other status throws an error
naming the method and the status code. -/
def defaultResponseHandler (response : Response) : HandlerOutcome :=
  if response.statusCode = 200 ∨ response.statusCode = 404 then
    .returns (.jsBool true)
  else if response.statusCode = 429 then
    .returns (.jsBool false)
  else
    .throws ("HTTP " ++ response.method ++ " request failed with "
      ++ toString response.statusCode ++ ": " ++ statusDetails response.statusMessage)

/-- Number of registrations per event kind on a transport request. -/
structure ReqListeners where
  onError : Nat
  onClose : Nat
  onResponse : Nat
  onData : Nat
  onEnd : Nat
deriving Repr, DecidableEq

/-- Listener set attached by `_startRequest` (`error`, `close`, `response`). -/
def startListeners : ReqListeners :=
  { onError := 1, onClose := 1, onResponse := 1, onData := 0, onEnd := 0 }

/-- No registrations at all. -/
def noListeners : ReqListeners :=
  { onError := 0, onClose := 0, onResponse := 0, onData := 0, onEnd := 0 }

/-- One `removeListener` call per event kind (each removes at most one
registration), as in `detachFromStreams`. -/
def removeOneEachReq (l : ReqListeners) : ReqListeners :=
  { onError := l.onError - 1, onClose := l.onClose - 1, onResponse := l.onResponse - 1,
    onData := l.onData - 1, onEnd := l.onEnd - 1 }

/-- The `data`/`close`/`end` registrations added on the accept path of
`onRequestResponse`. -/
def attachAcceptReq (l : ReqListeners) : ReqListeners :=
  { l with onData := l.onData + 1, onClose := l.onClose + 1, onEnd := l.onEnd + 1 }

/-- A transport request handle: the options it was issued with, its
listener registrations, and how many times `destroy` was called on it. -/
structure ReqHandle where
  url : String
  qs : Obj
  headers : Obj
  gzip : Bool
  listeners : ReqListeners
  destroyCount : Nat
deriving Repr, DecidableEq

/-- Number of registrations per event kind on a transform instance. -/
structure TransListeners where
  onData : Nat
  onError : Nat
  onClose : Nat
  onEnd : Nat
  onComplete : Nat
deriving Repr, DecidableEq

/-- No registrations on a transform. -/
def noTransListeners : TransListeners :=
  { onData := 0, onError := 0, onClose := 0, onEnd := 0, onComplete := 0 }

/-- One `removeListener` call per event kind on a transform. -/
def removeOneEachTrans (l : TransListeners) : TransListeners :=
  { onData := l.onData - 1, onError := l.onError - 1, onClose := l.onClose - 1,
    onEnd := l.onEnd - 1, onComplete := l.onComplete - 1 }

/-- A transform-stage instance: its listener registrations, whether its
end-of-input (`transform.end()`) was signalled, and the index of the
request piped into it, if any. -/
structure TransHandle where
  listeners : TransListeners
  ended : Bool
  pipedFrom : Option Nat
deriving Repr, DecidableEq

/-- A consumer-observable event of the output stream: a pushed chunk, the
end-of-sequence signal (`push(null)`), or an emitted stream error. -/
inductive OutEvent where
  | chunk (c : String)
  | eos
  | err (e : String)
deriving Repr, DecidableEq

/-- Replace the element at index `i` (no effect when out of range). -/
def updateAt {α : Type} (l : List α) (i : Nat) (f : α → α) : List α :=
  match l[i]? with
  | some x => l.set i (f x)
  | none => l

/-- The page descriptor handed to the pagination continuation:
`{ url: this.url, query: this.query, headers: this.headers }`. -/
structure Page where
  url : String
  query : Option Obj
  headers : Option Obj
deriving Repr, DecidableEq

/-- The eventual result of `Promise.try(() => nextPage(page, data))`:
it resolves with a value of some truthiness, or it fails (the continuation
threw synchronously or the returned promise rejected). -/
inductive NextOutcome where
  | resolves (truthy : Bool)
  | fails
deriving Repr, DecidableEq

/-- A pagination continuation.  It receives the page descriptor and the
page data; since it may mutate the descriptor in place, it is modelled as
returning the (possibly rewritten) descriptor together with its outcome. -/
abbrev NextPage := Page → Option String → Page × NextOutcome

namespace PagedHttpGetReader

/-- The options bag of `PagedHttpGetReader` after merging with defaults:
whether a `transformFactory` is configured, the response-classification
policy, and the `abortOnError` flag. -/
structure Options where
  transformFactory : Bool
  responseHandler : Response → HandlerOutcome
  abortOnError : Bool

/-- Machine state of a `PagedHttpGetReader`: the current `url`/`query`/
`headers` (null when absent), the log of all transport requests created
(`this.request` is `current`, an index into it, or null), the log of all
transform instances created by the factory (`this.transform` is
`currentTransform`), the number of `transformFactory()` invocations, and
the output trace observed by the consumer. -/
structure State where
  url : String
  query : Option Obj
  headers : Option Obj
  requests : List ReqHandle
  current : Option Nat
  transforms : List TransHandle
  currentTransform : Option Nat
  factoryCalls : Nat
  output : List OutEvent
deriving Repr, DecidableEq

/-- From the constructor: `options.transformFactory` is invoked once (if
configured) only to probe the transform's object mode, and the probe
instance is dropped (`this.transform = null`); `query` and `headers` are
stored (deep-copied — value-identical here; aliasing is treated in the
heap model below), and no request exists yet. -/
def construct (options : Options) (url : String) (query headers : Option Obj) : State :=
  { url := url
    query := query
    headers := headers
    requests := []
    current := none
    transforms :=
      if options.transformFactory then
        [{ listeners := noTransListeners, ended := false, pipedFrom := none }]
      else []
    currentTransform := none
    factoryCalls := if options.transformFactory then 1 else 0
    output := [] }

/-- Emit a stream error (`this.emit('error', e)`). -/
def emitError (s : State) (e : String) : State :=
  { s with output := s.output ++ [OutEvent.err e] }

/-- Push a chunk to the consumer (`this.push(chunk)`). -/
def pushChunk (s : State) (c : String) : State :=
  { s with output := s.output ++ [OutEvent.chunk c] }

/-- Signal end of sequence (`this.push(null)`). -/
def pushNull (s : State) : State :=
  { s with output := s.output ++ [OutEvent.eos] }

/-- From `_startRequest`: issue a GET with the current url, `query || {}`,
`headers || {}` and `gzip: true`, and register the `error`, `close` and
`response` listeners on it. -/
def _startRequest (s : State) : State :=
  { s with
    requests := s.requests ++
      [{ url := s.url
         qs := s.query.getD []
         headers := s.headers.getD []
         gzip := true
         listeners := startListeners
         destroyCount := 0 }]
    current := some s.requests.length }

/-- The request half of `detachFromStreams`: remove one registration per
event kind from the current request and set `this.request = null`. -/
def detachRequestPart (s : State) : State :=
  match s.current with
  | some i =>
    { s with
      requests := updateAt s.requests i (fun r => { r with listeners := removeOneEachReq r.listeners })
      current := none }
  | none => s

/-- The transform half of `detachFromStreams`: remove one registration per
event kind from the current transform and set `this.transform = null`. -/
def detachTransformPart (s : State) : State :=
  match s.currentTransform with
  | some j =>
    { s with
      transforms := updateAt s.transforms j (fun t => { t with listeners := removeOneEachTrans t.listeners })
      currentTransform := none }
  | none => s

/-- `detachFromStreams`: detach from the current request, then from the
current transform. -/
def detachFromStreams (s : State) : State :=
  detachTransformPart (detachRequestPart s)

/-- From `_destroy`: if a request is live, capture it, detach from all
streams, and call `destroy` on the captured request. -/
def _destroy (s : State) : State :=
  match s.current with
  | some captured =>
    let s1 := detachFromStreams s
    { s1 with
      requests := updateAt s1.requests captured (fun r => { r with destroyCount := r.destroyCount + 1 }) }
  | none => s

/-- `this.transform.end()`: record that end-of-input was signalled to the
current transform (no-op when no transform is live). -/
def endCurrentTransform (s : State) : State :=
  match s.currentTransform with
  | some j =>
    { s with transforms := updateAt s.transforms j (fun t => { t with ended := true }) }
  | none => s

/-- From `proceedToNextPage`: detach from streams, build the page
descriptor from the current url/query/headers, invoke the continuation,
and either end the sequence (`push(null)`) on a falsy or failed outcome,
or adopt the (possibly mutated) descriptor and start the next request. -/
def proceedToNextPage (nextPage : NextPage) (s : State) (data : Option String) : State :=
  let s1 := detachFromStreams s
  let page : Page := { url := s1.url, query := s1.query, headers := s1.headers }
  match nextPage page data with
  | (p, outcome) =>
    match outcome with
    | .fails => pushNull s1
    | .resolves hasNextPage =>
      if hasNextPage then
        _startRequest { s1 with url := p.url, query := p.query, headers := p.headers }
      else
        pushNull s1

/-- Attach the `data`/`close`/`end` listeners to the current request (the
accept path of `onRequestResponse`). -/
def attachAcceptListeners (s : State) : State :=
  match s.current with
  | some i =>
    { s with requests := updateAt s.requests i (fun r => { r with listeners := attachAcceptReq r.listeners }) }
  | none => s

/-- The accept path when a `transformFactory` is configured:
`this.transform = this.options.transformFactory()` creates a fresh
instance, its five listeners are registered, and the request is piped
into it. -/
def createTransform (s : State) : State :=
  { s with
    factoryCalls := s.factoryCalls + 1
    transforms := s.transforms ++
      [{ listeners := { onData := 1, onError := 1, onClose := 1, onEnd := 1, onComplete := 1 }
         ended := false
         pipedFrom := s.current }]
    currentTransform := some s.transforms.length }

/-- From `onRequestResponse`: invoke the policy; on a synchronous throw,
emit the error, detach and end; if it returned exactly boolean `true`
(`_.isBoolean(v) && v`), attach body listeners (and a fresh transform when
a factory is configured); otherwise detach and wait on
`Promise.resolve(v)` — a truthy resolution is the contract violation
`responseHandler should not return promised true` (emit, detach, end), a
falsy resolution restarts the identical request, and a rejection emits the
rejection error, detaches and ends. -/
def onRequestResponse (options : Options) (s : State) (response : Response) : State :=
  match options.responseHandler response with
  | .throws e => pushNull (detachFromStreams (emitError s e))
  | .returns v =>
    if v.isBooleanTrue then
      let s1 := attachAcceptListeners s
      if options.transformFactory then createTransform s1 else s1
    else
      let s1 := detachFromStreams s
      match v.resolution with
      | .fulfilled true =>
        pushNull (detachFromStreams (emitError s1 "responseHandler should not return promised true"))
      | .fulfilled false => _startRequest s1
      | .rejected e => pushNull (detachFromStreams (emitError s1 e))

/-- From `onRequestError`: with `abortOnError` emit the error; otherwise
proceed to the pagination decision when no transform is live, else signal
end-of-input to the transform. -/
def onRequestError (options : Options) (nextPage : NextPage) (s : State) (e : String) : State :=
  if options.abortOnError then emitError s e
  else
    match s.currentTransform with
    | none => proceedToNextPage nextPage s none
    | some _ => endCurrentTransform s

/-- From `onRequestClose`: proceed to the pagination decision when no
transform is live, else signal end-of-input to the transform. -/
def onRequestClose (nextPage : NextPage) (s : State) : State :=
  match s.currentTransform with
  | none => proceedToNextPage nextPage s none
  | some _ => endCurrentTransform s

/-- From `onRequestEnd`: same branching as `onRequestClose`. -/
def onRequestEnd (nextPage : NextPage) (s : State) : State :=
  match s.currentTransform with
  | none => proceedToNextPage nextPage s none
  | some _ => endCurrentTransform s

/-- From `onRequestData`: push the chunk when no transform is live (the
pipe feeds the transform otherwise). -/
def onRequestData (s : State) (c : String) : State :=
  match s.currentTransform with
  | none => pushChunk s c
  | some _ => s

/-- From `onTransformError`: with `abortOnError` emit the error, else
signal end-of-input to the transform. -/
def onTransformError (options : Options) (s : State) (e : String) : State :=
  if options.abortOnError then emitError s e
  else endCurrentTransform s

/-- From `onTransformClose`: signal end-of-input to the transform. -/
def onTransformClose (s : State) : State :=
  endCurrentTransform s

/-- From `onTransformEnd`: proceed to the pagination decision with no
page data. -/
def onTransformEnd (nextPage : NextPage) (s : State) : State :=
  proceedToNextPage nextPage s none

/-- From `onTransformData`: push the transformed chunk. -/
def onTransformData (s : State) (c : String) : State :=
  pushChunk s c

/-- From `onTransformComplete`: proceed to the pagination decision with
the aggregated page result. -/
def onTransformComplete (nextPage : NextPage) (s : State) (data : String) : State :=
  proceedToNextPage nextPage s (some data)

end PagedHttpGetReader

namespace HttpGetReader

/-- The options of `HttpGetReader` other than the transform instance (the
transform is mutable state: `detachFromStreams` nulls it). -/
structure Options where
  responseHandler : Response → HandlerOutcome
  abortOnError : Bool

/-- Machine state of an `HttpGetReader`: url, query and headers as
configured, the log of transform instances ever held (at most one: the
caller-supplied instance — the instance keeps existing after the reader
drops its reference, so it is logged like the transport requests),
`this.options.transform` as `transform`, an index into that log or null
(nulled by `detachFromStreams`), the log of transport requests
(`this.request` is `current`), and the output trace. -/
structure State where
  url : String
  query : Option Obj
  headers : Option Obj
  transforms : List TransHandle
  transform : Option Nat
  requests : List ReqHandle
  current : Option Nat
  output : List OutEvent
deriving Repr, DecidableEq

/-- From the constructor: the options (including the caller-supplied
transform instance, query and headers) are stored as given — this reader
performs no deep copy of `query`/`headers` (see the heap model below). -/
def construct (url : String) (query headers : Option Obj) (transform : Option TransHandle) : State :=
  { url := url
    query := query
    headers := headers
    transforms :=
      match transform with
      | some t => [t]
      | none => []
    transform :=
      match transform with
      | some _ => some 0
      | none => none
    requests := []
    current := none
    output := [] }

/-- Emit a stream error (`this.emit('error', e)`). -/
def emitError (s : State) (e : String) : State :=
  { s with output := s.output ++ [OutEvent.err e] }

/-- Push a chunk to the consumer (`this.push(chunk)`). -/
def pushChunk (s : State) (c : String) : State :=
  { s with output := s.output ++ [OutEvent.chunk c] }

/-- Signal end of sequence (`this.push(null)`). -/
def pushNull (s : State) : State :=
  { s with output := s.output ++ [OutEvent.eos] }

/-- From `_startRequest`: issue a GET with the current url,
`options.query || {}`, `options.headers || {}` and `gzip: true`, and
register the `error`, `close` and `response` listeners. -/
def _startRequest (s : State) : State :=
  { s with
    requests := s.requests ++
      [{ url := s.url
         qs := s.query.getD []
         headers := s.headers.getD []
         gzip := true
         listeners := startListeners
         destroyCount := 0 }]
    current := some s.requests.length }

/-- `detachFromStreams`: remove one registration per event kind from the
current request and from the transform, and null both references
(`this.request = null` and `this.options.transform = null`, part_002
lines 294 and 302) — after a detach the reader has permanently forgotten
a configured transform. -/
def detachFromStreams (s : State) : State :=
  let s1 :=
    match s.current with
    | some i =>
      { s with
        requests := updateAt s.requests i (fun r => { r with listeners := removeOneEachReq r.listeners })
        current := none }
    | none => s
  match s1.transform with
  | some j =>
    { s1 with
      transforms := updateAt s1.transforms j
        (fun t => { t with listeners := removeOneEachTrans t.listeners })
      transform := none }
  | none => s1

/-- From `_destroy`: if a request is live, capture it, detach from all
streams, and call `destroy` on the captured request. -/
def _destroy (s : State) : State :=
  match s.current with
  | some captured =>
    let s1 := detachFromStreams s
    { s1 with
      requests := updateAt s1.requests captured (fun r => { r with destroyCount := r.destroyCount + 1 }) }
  | none => s

/-- `this.options.transform.end()`: record that end-of-input was
signalled to the transform (no-op when absent); the reference is kept. -/
def endTransform (s : State) : State :=
  match s.transform with
  | some j =>
    { s with transforms := updateAt s.transforms j (fun t => { t with ended := true }) }
  | none => s

/-- From `onRequestError`: with `abortOnError` emit the error; otherwise
detach and end cleanly when no transform is configured, else signal
end-of-input to the transform. -/
def onRequestError (options : Options) (s : State) (e : String) : State :=
  if options.abortOnError then emitError s e
  else
    match s.transform with
    | none => pushNull (detachFromStreams s)
    | some _ => endTransform s

/-- From `onRequestClose`: detach and end when no transform is
configured, else signal end-of-input to the transform. -/
def onRequestClose (s : State) : State :=
  match s.transform with
  | none => pushNull (detachFromStreams s)
  | some _ => endTransform s

/-- From `onRequestEnd`: same branching as `onRequestClose`. -/
def onRequestEnd (s : State) : State :=
  match s.transform with
  | none => pushNull (detachFromStreams s)
  | some _ => endTransform s

/-- From `onRequestData`: push the chunk when no transform is configured
(the pipe feeds the transform otherwise). -/
def onRequestData (s : State) (c : String) : State :=
  match s.transform with
  | none => pushChunk s c
  | some _ => s

/-- Attach the `data`/`close`/`end` listeners to the current request and,
when a transform is configured, its `data`/`error`/`close`/`end`
listeners, piping the request into it (the accept path of
`onRequestResponse`). -/
def attachAccept (s : State) : State :=
  let s1 :=
    match s.current with
    | some i =>
      { s with requests := updateAt s.requests i (fun r => { r with listeners := attachAcceptReq r.listeners }) }
    | none => s
  match s1.transform with
  | some j =>
    { s1 with
      transforms := updateAt s1.transforms j (fun t =>
        { t with
          listeners :=
            { t.listeners with
              onData := t.listeners.onData + 1
              onError := t.listeners.onError + 1
              onClose := t.listeners.onClose + 1
              onEnd := t.listeners.onEnd + 1 }
          pipedFrom := s1.current }) }
  | none => s1

/-- From `onRequestResponse`: invoke the policy; on a synchronous throw,
emit the error, detach and end.  Unlike the paged reader, the accept test
here is plain truthiness (`if (shouldProcessData)`), so any synchronously
truthy value — including a promise — is accepted at once; only a falsy
value reaches the deferred retry branch, whose `Promise.resolve` then
restarts on a falsy resolution, emits
`responseHandler should not return promised true` on a truthy resolution,
and emits the rejection error on a rejection. -/
def onRequestResponse (options : Options) (s : State) (response : Response) : State :=
  match options.responseHandler response with
  | .throws e => pushNull (detachFromStreams (emitError s e))
  | .returns v =>
    if v.syncTruthy then
      attachAccept s
    else
      let s1 := detachFromStreams s
      match v.resolution with
      | .fulfilled true =>
        pushNull (detachFromStreams (emitError s1 "responseHandler should not return promised true"))
      | .fulfilled false => _startRequest s1
      | .rejected e => pushNull (detachFromStreams (emitError s1 e))

/-- From `onTransformError`: with `abortOnError` emit the error, else
signal end-of-input to the transform. -/
def onTransformError (options : Options) (s : State) (e : String) : State :=
  if options.abortOnError then emitError s e
  else endTransform s

/-- From `onTransformClose`: end the output and detach. -/
def onTransformClose (s : State) : State :=
  detachFromStreams (pushNull s)

/-- From `onTransformEnd`: end the output (`push(null)`) and detach — the
transform's completion drives the stream end. -/
def onTransformEnd (s : State) : State :=
  detachFromStreams (pushNull s)

/-- From `onTransformData`: push the transformed chunk. -/
def onTransformData (s : State) (c : String) : State :=
  pushChunk s c

end HttpGetReader

namespace Alias

/-!
Reference-level model of the constructors, for aliasing facts.  Mapping
objects live in a heap indexed by numeric references; `_.cloneDeep`
allocates a fresh reference holding an equal value.  `PagedHttpGetReader`
clones `options.query`/`options.headers` on construction;
`HttpGetReader` merges its options with `Object.assign` (a shallow copy),
so the caller's `query`/`headers` objects are stored by reference.
-/

/-- A heap of mapping objects; a reference is an index into it. -/
abbrev Heap := List Obj

/-- Dereference (out-of-range reads give the empty object). -/
def readObj (h : Heap) (r : Nat) : Obj := (h[r]?).getD []

/-- Mutate the object behind a reference in place. -/
def writeObj (h : Heap) (r : Nat) (v : Obj) : Heap := h.set r v

/-- `_.cloneDeep`: allocate a fresh object with an equal value; returns
the new heap and the fresh reference. -/
def cloneDeep (h : Heap) (r : Nat) : Heap × Nat :=
  (h ++ [readObj h r], h.length)

/-- The query/headers references held by a reader after construction. -/
structure Refs where
  queryRef : Option Nat
  headersRef : Option Nat
deriving Repr, DecidableEq

/-- The `PagedHttpGetReader` constructor at reference level:
`this.query = options.query ? _.cloneDeep(options.query) : null`, then
the same for headers. -/
def pagedConstructRefs (h : Heap) (query headers : Option Nat) : Heap × Refs :=
  let step1 :=
    match query with
    | some r =>
      let c := cloneDeep h r
      (c.1, some c.2)
    | none => (h, none)
  let step2 :=
    match headers with
    | some r =>
      let c := cloneDeep step1.1 r
      (c.1, some c.2)
    | none => (step1.1, none)
  (step2.1, { queryRef := step1.2, headersRef := step2.2 })

/-- The `HttpGetReader` constructor at reference level: `Object.assign`
copies the options bag shallowly, so the caller's own query/headers
objects are stored by reference and nothing is allocated. -/
def httpConstructRefs (h : Heap) (query headers : Option Nat) : Heap × Refs :=
  (h, { queryRef := query, headersRef := headers })

end Alias

/-! Concrete artifacts used by witnesses and counterexamples. -/

/-- A policy that returns a promise later fulfilled with `true`. -/
def promisedTrueHandler : Response → HandlerOutcome :=
  fun _ => .returns (.thenable (.fulfilled true))

/-- A policy that returns a promise later fulfilled with `false` — a
synchronously truthy non-boolean value whose resolution is falsy. -/
def promisedFalseHandler : Response → HandlerOutcome :=
  fun _ => .returns (.thenable (.fulfilled false))

/-- Paged options with the default policy, no transform factory, and no
abort on error (the constructor defaults). -/
def pagedDefaultOptions : PagedHttpGetReader.Options :=
  { transformFactory := false
    responseHandler := defaultResponseHandler
    abortOnError := false }

/-- Paged options with the default policy and a transform factory. -/
def pagedFactoryOptions : PagedHttpGetReader.Options :=
  { transformFactory := true
    responseHandler := defaultResponseHandler
    abortOnError := false }

/-- Single-reader options with the default policy, no abort. -/
def httpDefaultOptions : HttpGetReader.Options :=
  { responseHandler := defaultResponseHandler
    abortOnError := false }

/-- A 200 response. -/
def resp200 : Response := { statusCode := 200, statusMessage := some "OK", method := "GET" }

/-- A 429 response. -/
def resp429 : Response := { statusCode := 429, statusMessage := some "Too Many Requests", method := "GET" }

/-- A 500 response. -/
def resp500 : Response := { statusCode := 500, statusMessage := some "Server Error", method := "GET" }

/-- A paged reader just constructed with a query and no headers. -/
def demoPagedFresh : PagedHttpGetReader.State :=
  PagedHttpGetReader.construct pagedDefaultOptions "http://dataplug.io/data/1" (some [("page", "1")]) none

/-- The same paged reader with its first request in flight. -/
def demoPagedInFlight : PagedHttpGetReader.State :=
  PagedHttpGetReader._startRequest demoPagedFresh

/-- The same paged reader after its first response was accepted. -/
def demoPagedAccepted : PagedHttpGetReader.State :=
  PagedHttpGetReader.onRequestResponse pagedDefaultOptions demoPagedInFlight resp200

/-- A single reader with a request in flight and no transform. -/
def demoHttpInFlight : HttpGetReader.State :=
  HttpGetReader._startRequest (HttpGetReader.construct "http://dataplug.io/data" none none none)

/-- A continuation that advances the url and continues. -/
def demoNextAdvance : NextPage :=
  fun p _ => ({ p with url := "http://dataplug.io/data/2", query := some [("page", "2")] }, .resolves true)

/-- A continuation that reports no further page. -/
def demoNextStop : NextPage :=
  fun p _ => (p, .resolves false)

/-- A continuation that throws (or returns a rejecting promise). -/
def demoNextFails : NextPage :=
  fun p _ => (p, .fails)

/-- Single-reader options with the default policy and abort on error. -/
def httpAbortOptions : HttpGetReader.Options :=
  { responseHandler := defaultResponseHandler
    abortOnError := true }

/-- A fresh transform instance. -/
def demoTransform : TransHandle :=
  { listeners := noTransListeners, ended := false, pipedFrom := none }

/-- A single reader with a transform configured and a request in flight. -/
def demoHttpWithTransform : HttpGetReader.State :=
  HttpGetReader._startRequest
    (HttpGetReader.construct "http://dataplug.io/data" none none (some demoTransform))

/-- The same single reader after its response was accepted (body piped
into the transform, whose listeners are attached). -/
def demoHttpAccepted : HttpGetReader.State :=
  HttpGetReader.onRequestResponse httpDefaultOptions demoHttpWithTransform resp200

/-- A paged reader with a transform factory, just constructed. -/
def demoPagedFactoryFresh : PagedHttpGetReader.State :=
  PagedHttpGetReader.construct pagedFactoryOptions "http://dataplug.io/data/1" none none

/-- The same reader with its first request in flight. -/
def demoPagedFactoryInFlight : PagedHttpGetReader.State :=
  PagedHttpGetReader._startRequest demoPagedFactoryFresh

/-- The same reader after its first response was accepted (a fresh
transform instance is attached). -/
def demoPagedFactoryAccepted : PagedHttpGetReader.State :=
  PagedHttpGetReader.onRequestResponse pagedFactoryOptions demoPagedFactoryInFlight resp200

/-! Helper lemmas about `updateAt`. -/

theorem updateAt_length {α : Type} (l : List α) (i : Nat) (f : α → α) :
    (updateAt l i f).length = l.length := by
  unfold updateAt
  split <;> simp

theorem updateAt_getElem_self {α : Type} {l : List α} {i : Nat} {x : α} (f : α → α)
    (h : l[i]? = some x) : (updateAt l i f)[i]? = some (f x) := by
  unfold updateAt
  rw [h]
  have hi : i < l.length := (List.getElem?_eq_some.mp h).1
  simp [List.getElem?_set_self', hi]

theorem updateAt_getElem_ne {α : Type} (l : List α) (i : Nat) (f : α → α) {j : Nat}
    (h : i ≠ j) : (updateAt l i f)[j]? = l[j]? := by
  unfold updateAt
  split
  case h_1 => exact List.getElem?_set_ne h
  case h_2 => rfl

namespace PagedHttpGetReader

/-! Component lemmas for the paged machine primitives. -/

theorem detachRequestPart_output (s : State) : (detachRequestPart s).output = s.output := by
  unfold detachRequestPart; split <;> rfl

theorem detachRequestPart_url (s : State) : (detachRequestPart s).url = s.url := by
  unfold detachRequestPart; split <;> rfl

theorem detachRequestPart_query (s : State) : (detachRequestPart s).query = s.query := by
  unfold detachRequestPart; split <;> rfl

theorem detachRequestPart_headers (s : State) : (detachRequestPart s).headers = s.headers := by
  unfold detachRequestPart; split <;> rfl

theorem detachRequestPart_factoryCalls (s : State) :
    (detachRequestPart s).factoryCalls = s.factoryCalls := by
  unfold detachRequestPart; split <;> rfl

theorem detachRequestPart_transforms (s : State) :
    (detachRequestPart s).transforms = s.transforms := by
  unfold detachRequestPart; split <;> rfl

theorem detachRequestPart_currentTransform (s : State) :
    (detachRequestPart s).currentTransform = s.currentTransform := by
  unfold detachRequestPart; split <;> rfl

theorem detachRequestPart_current (s : State) : (detachRequestPart s).current = none := by
  unfold detachRequestPart
  split
  case h_1 => rfl
  case h_2 h => exact h

theorem detachRequestPart_requests_length (s : State) :
    (detachRequestPart s).requests.length = s.requests.length := by
  unfold detachRequestPart
  split
  case h_1 => simp [updateAt_length]
  case h_2 => rfl

theorem detachTransformPart_output (s : State) : (detachTransformPart s).output = s.output := by
  unfold detachTransformPart; split <;> rfl

theorem detachTransformPart_url (s : State) : (detachTransformPart s).url = s.url := by
  unfold detachTransformPart; split <;> rfl

theorem detachTransformPart_query (s : State) : (detachTransformPart s).query = s.query := by
  unfold detachTransformPart; split <;> rfl

theorem detachTransformPart_headers (s : State) : (detachTransformPart s).headers = s.headers := by
  unfold detachTransformPart; split <;> rfl

theorem detachTransformPart_factoryCalls (s : State) :
    (detachTransformPart s).factoryCalls = s.factoryCalls := by
  unfold detachTransformPart; split <;> rfl

theorem detachTransformPart_requests (s : State) :
    (detachTransformPart s).requests = s.requests := by
  unfold detachTransformPart; split <;> rfl

theorem detachTransformPart_current (s : State) : (detachTransformPart s).current = s.current := by
  unfold detachTransformPart; split <;> rfl

theorem detachTransformPart_currentTransform (s : State) :
    (detachTransformPart s).currentTransform = none := by
  unfold detachTransformPart
  split
  case h_1 => rfl
  case h_2 h => exact h

theorem detachFromStreams_output (s : State) : (detachFromStreams s).output = s.output := by
  unfold detachFromStreams
  rw [detachTransformPart_output, detachRequestPart_output]

theorem detachFromStreams_url (s : State) : (detachFromStreams s).url = s.url := by
  unfold detachFromStreams
  rw [detachTransformPart_url, detachRequestPart_url]

theorem detachFromStreams_query (s : State) : (detachFromStreams s).query = s.query := by
  unfold detachFromStreams
  rw [detachTransformPart_query, detachRequestPart_query]

theorem detachFromStreams_headers (s : State) : (detachFromStreams s).headers = s.headers := by
  unfold detachFromStreams
  rw [detachTransformPart_headers, detachRequestPart_headers]

theorem detachFromStreams_factoryCalls (s : State) :
    (detachFromStreams s).factoryCalls = s.factoryCalls := by
  unfold detachFromStreams
  rw [detachTransformPart_factoryCalls, detachRequestPart_factoryCalls]

theorem detachFromStreams_current (s : State) : (detachFromStreams s).current = none := by
  unfold detachFromStreams
  rw [detachTransformPart_current, detachRequestPart_current]

theorem detachFromStreams_currentTransform (s : State) :
    (detachFromStreams s).currentTransform = none := by
  unfold detachFromStreams
  rw [detachTransformPart_currentTransform]

theorem detachFromStreams_requests_length (s : State) :
    (detachFromStreams s).requests.length = s.requests.length := by
  unfold detachFromStreams
  rw [detachTransformPart_requests, detachRequestPart_requests_length]

theorem pushNull_output (s : State) : (pushNull s).output = s.output ++ [OutEvent.eos] := rfl

theorem emitError_output (s : State) (e : String) :
    (emitError s e).output = s.output ++ [OutEvent.err e] := rfl

theorem startRequest_factoryCalls (s : State) : (_startRequest s).factoryCalls = s.factoryCalls := rfl

theorem startRequest_output (s : State) : (_startRequest s).output = s.output := rfl

theorem endCurrentTransform_factoryCalls (s : State) :
    (endCurrentTransform s).factoryCalls = s.factoryCalls := by
  unfold endCurrentTransform; split <;> rfl

theorem endCurrentTransform_output (s : State) :
    (endCurrentTransform s).output = s.output := by
  unfold endCurrentTransform; split <;> rfl

theorem attachAcceptListeners_factoryCalls (s : State) :
    (attachAcceptListeners s).factoryCalls = s.factoryCalls := by
  unfold attachAcceptListeners; split <;> rfl

theorem attachAcceptListeners_output (s : State) :
    (attachAcceptListeners s).output = s.output := by
  unfold attachAcceptListeners; split <;> rfl

theorem proceedToNextPage_factoryCalls (nextPage : NextPage) (s : State) (data : Option String) :
    (proceedToNextPage nextPage s data).factoryCalls = s.factoryCalls := by
  unfold proceedToNextPage
  dsimp only
  split
  · simp [pushNull, detachFromStreams_factoryCalls]
  · split
    · simp [_startRequest, detachFromStreams_factoryCalls]
    · simp [pushNull, detachFromStreams_factoryCalls]

theorem destroy_factoryCalls (s : State) : (_destroy s).factoryCalls = s.factoryCalls := by
  unfold _destroy
  split
  case h_1 => simp [detachFromStreams_factoryCalls]
  case h_2 => rfl

theorem destroy_output (s : State) : (_destroy s).output = s.output := by
  unfold _destroy
  split
  case h_1 => simp [detachFromStreams_output]
  case h_2 => rfl

end PagedHttpGetReader

namespace HttpGetReader

/-! Component lemmas for the single-request machine primitives. -/

theorem detachFromStreams_output_single (s : State) : (detachFromStreams s).output = s.output := by
  unfold detachFromStreams
  cases hc : s.current <;> cases ht : s.transform <;> simp [hc, ht]

theorem detachFromStreams_url_single (s : State) : (detachFromStreams s).url = s.url := by
  unfold detachFromStreams
  cases hc : s.current <;> cases ht : s.transform <;> simp [hc, ht]

theorem detachFromStreams_query_single (s : State) : (detachFromStreams s).query = s.query := by
  unfold detachFromStreams
  cases hc : s.current <;> cases ht : s.transform <;> simp [hc, ht]

theorem detachFromStreams_headers_single (s : State) : (detachFromStreams s).headers = s.headers := by
  unfold detachFromStreams
  cases hc : s.current <;> cases ht : s.transform <;> simp [hc, ht]

theorem detachFromStreams_current_single (s : State) : (detachFromStreams s).current = none := by
  unfold detachFromStreams
  cases hc : s.current <;> cases ht : s.transform <;> simp [hc, ht]

theorem detachFromStreams_requests_length_single (s : State) :
    (detachFromStreams s).requests.length = s.requests.length := by
  unfold detachFromStreams
  cases hc : s.current <;> cases ht : s.transform <;> simp [hc, ht, updateAt_length]

theorem pushNull_output_single (s : State) : (pushNull s).output = s.output ++ [OutEvent.eos] := rfl

theorem emitError_output_single (s : State) (e : String) :
    (emitError s e).output = s.output ++ [OutEvent.err e] := rfl

theorem endTransform_output (s : State) : (endTransform s).output = s.output := by
  unfold endTransform; split <;> rfl

theorem endTransform_query (s : State) : (endTransform s).query = s.query := by
  unfold endTransform; split <;> rfl

theorem endTransform_headers (s : State) : (endTransform s).headers = s.headers := by
  unfold endTransform; split <;> rfl

theorem attachAccept_output (s : State) : (attachAccept s).output = s.output := by
  unfold attachAccept
  dsimp only
  cases hc : s.current <;> cases ht : s.transform <;> simp [hc, ht]

theorem attachAccept_query (s : State) : (attachAccept s).query = s.query := by
  unfold attachAccept
  dsimp only
  cases hc : s.current <;> cases ht : s.transform <;> simp [hc, ht]

theorem attachAccept_headers (s : State) : (attachAccept s).headers = s.headers := by
  unfold attachAccept
  dsimp only
  cases hc : s.current <;> cases ht : s.transform <;> simp [hc, ht]

end HttpGetReader

/-- C1: under the default classification policy of `HttpGetReader` and
`PagedHttpGetReader`, a status code of 200 or 404 is classified Accept
(the policy returns boolean `true`, so a 404 is consumed as a valid empty
resource, not an error), a 429 is classified Retry (boolean `false`), and
every other status throws an error naming the HTTP method and the status
code; in both readers that error fails the stream (it is emitted on the
error channel, followed by end of sequence). -/
theorem C1_default_classification (response : Response) :
    ((response.statusCode = 200 ∨ response.statusCode = 404) →
      defaultResponseHandler response = HandlerOutcome.returns (JsValue.jsBool true)) ∧
    (response.statusCode = 429 →
      defaultResponseHandler response = HandlerOutcome.returns (JsValue.jsBool false)) ∧
    (response.statusCode ≠ 200 → response.statusCode ≠ 404 → response.statusCode ≠ 429 →
      ∃ msg, defaultResponseHandler response = HandlerOutcome.throws msg ∧
        (∃ pre mid post,
          msg = pre ++ response.method ++ mid ++ toString response.statusCode ++ post) ∧
        (∀ (options : PagedHttpGetReader.Options) (s : PagedHttpGetReader.State),
          options.responseHandler = defaultResponseHandler →
          (PagedHttpGetReader.onRequestResponse options s response).output
            = s.output ++ [OutEvent.err msg, OutEvent.eos]) ∧
        (∀ (options : HttpGetReader.Options) (s : HttpGetReader.State),
          options.responseHandler = defaultResponseHandler →
          (HttpGetReader.onRequestResponse options s response).output
            = s.output ++ [OutEvent.err msg, OutEvent.eos])) := by
  refine ⟨?_, ?_, ?_⟩
  · intro h
    simp [defaultResponseHandler, h]
  · intro h
    simp [defaultResponseHandler, h]
  · intro h200 h404 h429
    refine ⟨"HTTP " ++ response.method ++ " request failed with "
      ++ toString response.statusCode ++ ": " ++ statusDetails response.statusMessage,
      ?_, ?_, ?_, ?_⟩
    · simp [defaultResponseHandler, h200, h404, h429]
    · exact ⟨"HTTP ", " request failed with ",
        ": " ++ statusDetails response.statusMessage, by simp [String.append_assoc]⟩
    · intro options s hopts
      have hthrow : options.responseHandler response
          = HandlerOutcome.throws ("HTTP " ++ response.method ++ " request failed with "
            ++ toString response.statusCode ++ ": " ++ statusDetails response.statusMessage) := by
        rw [hopts]
        simp [defaultResponseHandler, h200, h404, h429]
      unfold PagedHttpGetReader.onRequestResponse
      rw [hthrow]
      simp [PagedHttpGetReader.pushNull_output, PagedHttpGetReader.detachFromStreams_output,
        PagedHttpGetReader.emitError_output]
    · intro options s hopts
      have hthrow : options.responseHandler response
          = HandlerOutcome.throws ("HTTP " ++ response.method ++ " request failed with "
            ++ toString response.statusCode ++ ": " ++ statusDetails response.statusMessage) := by
        rw [hopts]
        simp [defaultResponseHandler, h200, h404, h429]
      unfold HttpGetReader.onRequestResponse
      rw [hthrow]
      simp [HttpGetReader.pushNull_output_single, HttpGetReader.detachFromStreams_output_single,
        HttpGetReader.emitError_output_single]

/-- Witness for C1: a 200 is accepted, a 429 is retried, and a concrete
500 response fails both readers with an error naming the method and the
status code. -/
theorem C1_witness :
    defaultResponseHandler resp200 = HandlerOutcome.returns (JsValue.jsBool true) ∧
    defaultResponseHandler resp429 = HandlerOutcome.returns (JsValue.jsBool false) ∧
    (∃ msg, defaultResponseHandler resp500 = HandlerOutcome.throws msg ∧
      (∃ pre mid post, msg = pre ++ resp500.method ++ mid ++ toString resp500.statusCode ++ post) ∧
      (PagedHttpGetReader.onRequestResponse pagedDefaultOptions demoPagedInFlight resp500).output
        = demoPagedInFlight.output ++ [OutEvent.err msg, OutEvent.eos] ∧
      (HttpGetReader.onRequestResponse httpDefaultOptions demoHttpInFlight resp500).output
        = demoHttpInFlight.output ++ [OutEvent.err msg, OutEvent.eos]) := by
  refine ⟨(C1_default_classification resp200).1 (Or.inl rfl),
    (C1_default_classification resp429).2.1 rfl, ?_⟩
  obtain ⟨msg, hm, hd, hpaged, hsingle⟩ :=
    (C1_default_classification resp500).2.2 (by decide) (by decide) (by decide)
  exact ⟨msg, hm, hd, hpaged pagedDefaultOptions demoPagedInFlight rfl,
    hsingle httpDefaultOptions demoHttpInFlight rfl⟩

/-- C2: on page completion `PagedHttpGetReader` invokes the continuation
with a descriptor built from the current url/query/headers (the
hypothesis fixes exactly that call).  A false (or resolved-false) result
appends exactly one end-of-sequence signal and starts no further request;
a true (or resolved-true) result adopts the possibly-mutated descriptor's
url, query and headers as the new current state and starts the next
page's request with precisely those values. -/
theorem C2_pagination_continuation
    (nextPage : NextPage) (s : PagedHttpGetReader.State) (data : Option String)
    (p : Page) (hasNextPage : Bool)
    (h : nextPage { url := s.url, query := s.query, headers := s.headers } data
      = (p, NextOutcome.resolves hasNextPage)) :
    (hasNextPage = false →
      (PagedHttpGetReader.proceedToNextPage nextPage s data).output
        = s.output ++ [OutEvent.eos] ∧
      (PagedHttpGetReader.proceedToNextPage nextPage s data).requests.length
        = s.requests.length ∧
      (PagedHttpGetReader.proceedToNextPage nextPage s data).current = none) ∧
    (hasNextPage = true →
      (PagedHttpGetReader.proceedToNextPage nextPage s data).url = p.url ∧
      (PagedHttpGetReader.proceedToNextPage nextPage s data).query = p.query ∧
      (PagedHttpGetReader.proceedToNextPage nextPage s data).headers = p.headers ∧
      (PagedHttpGetReader.proceedToNextPage nextPage s data).requests.length
        = s.requests.length + 1 ∧
      (PagedHttpGetReader.proceedToNextPage nextPage s data).current
        = some s.requests.length ∧
      (PagedHttpGetReader.proceedToNextPage nextPage s data).requests[s.requests.length]?
        = some { url := p.url, qs := p.query.getD [], headers := p.headers.getD []
                 gzip := true, listeners := startListeners, destroyCount := 0 } ∧
      (PagedHttpGetReader.proceedToNextPage nextPage s data).output = s.output) := by
  unfold PagedHttpGetReader.proceedToNextPage
  dsimp only
  rw [PagedHttpGetReader.detachFromStreams_url, PagedHttpGetReader.detachFromStreams_query,
    PagedHttpGetReader.detachFromStreams_headers, h]
  constructor
  · intro hfalse
    subst hfalse
    dsimp only
    refine ⟨?_, ?_, ?_⟩
    · simp [PagedHttpGetReader.pushNull_output, PagedHttpGetReader.detachFromStreams_output]
    · simp [PagedHttpGetReader.pushNull, PagedHttpGetReader.detachFromStreams_requests_length]
    · simp [PagedHttpGetReader.pushNull, PagedHttpGetReader.detachFromStreams_current]
  · intro htrue
    subst htrue
    dsimp only
    rw [if_pos rfl]
    refine ⟨rfl, rfl, rfl, ?_, ?_, ?_, ?_⟩
    · simp [PagedHttpGetReader._startRequest, PagedHttpGetReader.detachFromStreams_requests_length]
    · simp [PagedHttpGetReader._startRequest, PagedHttpGetReader.detachFromStreams_requests_length]
    · show ((PagedHttpGetReader.detachFromStreams s).requests ++ [_])[s.requests.length]? = _
      rw [← PagedHttpGetReader.detachFromStreams_requests_length s]
      exact List.getElem?_concat_length _ _
    · simp [PagedHttpGetReader._startRequest, PagedHttpGetReader.detachFromStreams_output]

/-- Witness for C2: with a request in flight, a continuation that rewrites
the descriptor and continues makes the streamer adopt the new url and
start a second request with no output; a continuation that stops yields
exactly one end-of-sequence signal. -/
theorem C2_witness :
    (PagedHttpGetReader.proceedToNextPage demoNextAdvance demoPagedInFlight none).url
      = "http://dataplug.io/data/2" ∧
    (PagedHttpGetReader.proceedToNextPage demoNextAdvance demoPagedInFlight none).query
      = some [("page", "2")] ∧
    (PagedHttpGetReader.proceedToNextPage demoNextAdvance demoPagedInFlight none).requests.length
      = demoPagedInFlight.requests.length + 1 ∧
    (PagedHttpGetReader.proceedToNextPage demoNextAdvance demoPagedInFlight none).output
      = demoPagedInFlight.output ∧
    (PagedHttpGetReader.proceedToNextPage demoNextStop demoPagedInFlight none).output
      = demoPagedInFlight.output ++ [OutEvent.eos] ∧
    (PagedHttpGetReader.proceedToNextPage demoNextStop demoPagedInFlight none).requests.length
      = demoPagedInFlight.requests.length := by
  have h1 := C2_pagination_continuation demoNextAdvance demoPagedInFlight none
    { url := "http://dataplug.io/data/2", query := some [("page", "2")]
      headers := demoPagedInFlight.headers } true rfl
  have h2 := C2_pagination_continuation demoNextStop demoPagedInFlight none
    { url := demoPagedInFlight.url, query := demoPagedInFlight.query
      headers := demoPagedInFlight.headers } false rfl
  exact ⟨(h1.2 rfl).1, (h1.2 rfl).2.1, (h1.2 rfl).2.2.2.1, (h1.2 rfl).2.2.2.2.2.2,
    (h2.1 rfl).1, (h2.1 rfl).2.1⟩

/-- C4: when the pagination continuation throws synchronously or its
promise rejects, `PagedHttpGetReader` appends exactly one end-of-sequence
signal, emits no stream error, and starts no further request.
`proceedToNextPage` never consults `abortOnError` (it takes no options at
all), so this holds regardless of that flag. -/
theorem C4_continuation_failure
    (nextPage : NextPage) (s : PagedHttpGetReader.State) (data : Option String) (p : Page)
    (h : nextPage { url := s.url, query := s.query, headers := s.headers } data
      = (p, NextOutcome.fails)) :
    (PagedHttpGetReader.proceedToNextPage nextPage s data).output
      = s.output ++ [OutEvent.eos] ∧
    (∀ e, OutEvent.err e ∈ (PagedHttpGetReader.proceedToNextPage nextPage s data).output →
      OutEvent.err e ∈ s.output) ∧
    (PagedHttpGetReader.proceedToNextPage nextPage s data).requests.length
      = s.requests.length ∧
    (PagedHttpGetReader.proceedToNextPage nextPage s data).current = none := by
  unfold PagedHttpGetReader.proceedToNextPage
  dsimp only
  rw [PagedHttpGetReader.detachFromStreams_url, PagedHttpGetReader.detachFromStreams_query,
    PagedHttpGetReader.detachFromStreams_headers, h]
  dsimp only
  have hout : (PagedHttpGetReader.pushNull (PagedHttpGetReader.detachFromStreams s)).output
      = s.output ++ [OutEvent.eos] := by
    simp [PagedHttpGetReader.pushNull_output, PagedHttpGetReader.detachFromStreams_output]
  refine ⟨hout, ?_, ?_, ?_⟩
  · intro e hmem
    rw [hout] at hmem
    rcases List.mem_append.mp hmem with hin | hin
    · exact hin
    · simp at hin
  · simp [PagedHttpGetReader.pushNull, PagedHttpGetReader.detachFromStreams_requests_length]
  · simp [PagedHttpGetReader.pushNull, PagedHttpGetReader.detachFromStreams_current]

/-- Witness for C4: a throwing continuation on a concrete in-flight state
yields one end-of-sequence signal, no error, and no further request. -/
theorem C4_witness :
    (PagedHttpGetReader.proceedToNextPage demoNextFails demoPagedInFlight none).output
      = demoPagedInFlight.output ++ [OutEvent.eos] ∧
    (PagedHttpGetReader.proceedToNextPage demoNextFails demoPagedInFlight none).requests.length
      = demoPagedInFlight.requests.length := by
  have h := C4_continuation_failure demoNextFails demoPagedInFlight none
    { url := demoPagedInFlight.url, query := demoPagedInFlight.query
      headers := demoPagedInFlight.headers } rfl
  exact ⟨h.1, h.2.2.1⟩

/-- C5: on a transport error in `HttpGetReader`: with `abortOnError` the
stream fails with that error; otherwise, with no transform configured the
stream ends cleanly as an empty success (detach and one end-of-sequence
signal), and with a transform configured end-of-input is signalled to the
transform (`transform.end()`) with no output yet — the transform's own
end event then drives the stream end (`onTransformEnd` pushes the
end-of-sequence signal). -/
theorem C5_transport_error
    (options : HttpGetReader.Options) (s : HttpGetReader.State) (e : String) :
    (options.abortOnError = true →
      HttpGetReader.onRequestError options s e = HttpGetReader.emitError s e ∧
      (HttpGetReader.onRequestError options s e).output = s.output ++ [OutEvent.err e]) ∧
    (options.abortOnError = false → s.transform = none →
      (HttpGetReader.onRequestError options s e).output = s.output ++ [OutEvent.eos] ∧
      (HttpGetReader.onRequestError options s e).current = none) ∧
    (options.abortOnError = false → ∀ (j : Nat) (t : TransHandle),
      s.transform = some j → s.transforms[j]? = some t →
      HttpGetReader.onRequestError options s e = HttpGetReader.endTransform s ∧
      (HttpGetReader.onRequestError options s e).transforms[j]?
        = some { t with ended := true } ∧
      (HttpGetReader.onRequestError options s e).transform = some j ∧
      (HttpGetReader.onRequestError options s e).output = s.output) ∧
    (∀ s2 : HttpGetReader.State,
      (HttpGetReader.onTransformEnd s2).output = s2.output ++ [OutEvent.eos]) := by
  refine ⟨?_, ?_, ?_, ?_⟩
  · intro habort
    constructor
    · simp [HttpGetReader.onRequestError, habort]
    · simp [HttpGetReader.onRequestError, habort, HttpGetReader.emitError_output_single]
  · intro habort htrans
    unfold HttpGetReader.onRequestError
    rw [habort, htrans]
    constructor
    · simp [HttpGetReader.pushNull_output_single, HttpGetReader.detachFromStreams_output_single]
    · simp [HttpGetReader.pushNull, HttpGetReader.detachFromStreams_current_single]
  · intro habort j t hj htr
    unfold HttpGetReader.onRequestError
    rw [habort, hj]
    refine ⟨rfl, ?_, ?_, ?_⟩
    · unfold HttpGetReader.endTransform
      rw [hj]
      dsimp only
      exact updateAt_getElem_self _ htr
    · dsimp only
      unfold HttpGetReader.endTransform
      rw [hj]
      rfl
    · simp [HttpGetReader.endTransform_output]
  · intro s2
    simp [HttpGetReader.onTransformEnd, HttpGetReader.detachFromStreams_output_single,
      HttpGetReader.pushNull_output_single]

/-- Witness for C5: concrete single readers with and without a transform,
under both `abortOnError` settings. -/
theorem C5_witness :
    (HttpGetReader.onRequestError httpAbortOptions demoHttpInFlight "boom").output
      = demoHttpInFlight.output ++ [OutEvent.err "boom"] ∧
    (HttpGetReader.onRequestError httpDefaultOptions demoHttpInFlight "boom").output
      = demoHttpInFlight.output ++ [OutEvent.eos] ∧
    (HttpGetReader.onRequestError httpDefaultOptions demoHttpWithTransform "boom").transforms[0]?
      = some { demoTransform with ended := true } ∧
    (HttpGetReader.onRequestError httpDefaultOptions demoHttpWithTransform "boom").output
      = demoHttpWithTransform.output := by
  have habort := (C5_transport_error httpAbortOptions demoHttpInFlight "boom").1 rfl
  have hplain := (C5_transport_error httpDefaultOptions demoHttpInFlight "boom").2.1 rfl rfl
  have htrans := (C5_transport_error httpDefaultOptions demoHttpWithTransform "boom").2.2.1
    rfl 0 demoTransform rfl rfl
  exact ⟨habort.2, hplain.1, htrans.2.1, htrans.2.2.2⟩

/-- C3: a policy returning a deferred value that later resolves truthy
(modelled by `promisedTrueHandler`).  In `PagedHttpGetReader` the strict
`_.isBoolean(v) && v` accept test routes the promise to the retry branch
and its truthy resolution fails the stream with
`responseHandler should not return promised true`, under every
`abortOnError` setting — as the claim states.  In the TypeScript
`HttpGetReader`, however, the accept test is plain truthiness, so the
promise (an object, hence truthy) is accepted synchronously: the body
listeners are attached and no error is ever emitted — the claimed
protocol-violation failure is unreachable there, contradicting the claim
and the reader's own dead `promised true` guard. -/
theorem C3_promised_true_divergence :
    (∀ (tf abort : Bool) (s : PagedHttpGetReader.State) (response : Response),
      (PagedHttpGetReader.onRequestResponse
        { transformFactory := tf, responseHandler := promisedTrueHandler, abortOnError := abort }
        s response).output
        = s.output ++ [OutEvent.err "responseHandler should not return promised true",
            OutEvent.eos]) ∧
    (∀ (abort : Bool) (s : HttpGetReader.State) (response : Response),
      HttpGetReader.onRequestResponse
        { responseHandler := promisedTrueHandler, abortOnError := abort } s response
        = HttpGetReader.attachAccept s ∧
      (HttpGetReader.onRequestResponse
        { responseHandler := promisedTrueHandler, abortOnError := abort } s response).output
        = s.output) := by
  constructor
  · intro tf abort s response
    simp [PagedHttpGetReader.onRequestResponse, promisedTrueHandler, JsValue.isBooleanTrue,
      JsValue.resolution, PagedHttpGetReader.pushNull_output,
      PagedHttpGetReader.detachFromStreams_output, PagedHttpGetReader.emitError_output]
  · intro abort s response
    constructor
    · simp [HttpGetReader.onRequestResponse, promisedTrueHandler, JsValue.syncTruthy]
    · simp [HttpGetReader.onRequestResponse, promisedTrueHandler, JsValue.syncTruthy,
        HttpGetReader.attachAccept_output]

theorem PagedHttpGetReader.detachFromStreams_requests_of_current
    (s : PagedHttpGetReader.State) (i : Nat) (h : s.current = some i) :
    (PagedHttpGetReader.detachFromStreams s).requests
      = updateAt s.requests i (fun r => { r with listeners := removeOneEachReq r.listeners }) := by
  unfold PagedHttpGetReader.detachFromStreams
  rw [PagedHttpGetReader.detachTransformPart_requests]
  unfold PagedHttpGetReader.detachRequestPart
  rw [h]

theorem HttpGetReader.detachFromStreams_requests_of_current_single
    (s : HttpGetReader.State) (i : Nat) (h : s.current = some i) :
    (HttpGetReader.detachFromStreams s).requests
      = updateAt s.requests i (fun r => { r with listeners := removeOneEachReq r.listeners }) := by
  unfold HttpGetReader.detachFromStreams
  cases ht : s.transform <;> simp [h, ht]

theorem HttpGetReader.detachFromStreams_transform_single (s : HttpGetReader.State) :
    (HttpGetReader.detachFromStreams s).transform = none := by
  unfold HttpGetReader.detachFromStreams
  cases hc : s.current <;> cases ht : s.transform <;> simp [hc, ht]

theorem HttpGetReader.detachFromStreams_transforms_of_current_single
    (s : HttpGetReader.State) (j : Nat) (h : s.transform = some j) :
    (HttpGetReader.detachFromStreams s).transforms
      = updateAt s.transforms j (fun t => { t with listeners := removeOneEachTrans t.listeners }) := by
  unfold HttpGetReader.detachFromStreams
  cases hc : s.current <;> simp [hc, h]

/-- Counterexample for C6: the claim says the consumer-observable output
sequence is unaffected by a retry.  In the TypeScript `HttpGetReader`
the retry branch calls `detachFromStreams`, which permanently nulls
`this.options.transform` (part_002 line 302), so a configured transform
is discarded by the retry: on a concrete run with a transform, a body
chunk of a directly accepted response is not pushed raw (it flows into
the transform), but after a 429-retry the same accepted chunk is pushed
raw to the consumer — the retry is observable. -/
theorem C6_counterexample :
    (HttpGetReader.onRequestResponse httpDefaultOptions demoHttpWithTransform resp429).transform
      = none ∧
    (HttpGetReader.onRequestData
      (HttpGetReader.onRequestResponse httpDefaultOptions demoHttpWithTransform resp200)
      "data").output = [] ∧
    (HttpGetReader.onRequestData
      (HttpGetReader.onRequestResponse httpDefaultOptions
        (HttpGetReader.onRequestResponse httpDefaultOptions demoHttpWithTransform resp429)
        resp200)
      "data").output = [OutEvent.chunk "data"] := by
  refine ⟨rfl, rfl, rfl⟩

/-- C6 amended: a response classified Retry (the policy returned a value
other than boolean `true` whose resolution is falsy — in particular
`false`, as the default policy returns for a 429) makes both readers
detach every listener registered on the current request and re-issue a
GET with identical url, query and headers, with the output trace
untouched during the retry itself (no chunk, no end signal, no error).
The retry also nulls the transform reference in both readers.  In
`PagedHttpGetReader` this is harmless — each accepted page creates a
fresh transform from the factory — so the consumer-observable output is
unaffected there; in the TypeScript `HttpGetReader`, however, the nulled
`options.transform` is never restored, so a page accepted after a retry
is pushed raw instead of transformed, making the retry observable when a
transform is configured. -/
theorem C6_retry_identical :
    (∀ (options : PagedHttpGetReader.Options) (s : PagedHttpGetReader.State)
        (response : Response) (v : JsValue) (i : Nat) (r : ReqHandle),
      options.responseHandler response = HandlerOutcome.returns v →
      v.isBooleanTrue = false →
      v.resolution = Resolution.fulfilled false →
      s.current = some i →
      s.requests[i]? = some r →
      r.url = s.url → r.qs = s.query.getD [] → r.headers = s.headers.getD [] →
      r.listeners = startListeners →
      (PagedHttpGetReader.onRequestResponse options s response).output = s.output ∧
      (PagedHttpGetReader.onRequestResponse options s response).requests[i]?
        = some { r with listeners := noListeners } ∧
      (PagedHttpGetReader.onRequestResponse options s response).requests.length
        = s.requests.length + 1 ∧
      (PagedHttpGetReader.onRequestResponse options s response).current
        = some s.requests.length ∧
      (PagedHttpGetReader.onRequestResponse options s response).requests[s.requests.length]?
        = some { url := r.url, qs := r.qs, headers := r.headers, gzip := true
                 listeners := startListeners, destroyCount := 0 } ∧
      (PagedHttpGetReader.onRequestResponse options s response).currentTransform = none) ∧
    (∀ (options : HttpGetReader.Options) (s : HttpGetReader.State)
        (response : Response) (v : JsValue) (i : Nat) (r : ReqHandle),
      options.responseHandler response = HandlerOutcome.returns v →
      v.syncTruthy = false →
      v.resolution = Resolution.fulfilled false →
      s.current = some i →
      s.requests[i]? = some r →
      r.url = s.url → r.qs = s.query.getD [] → r.headers = s.headers.getD [] →
      r.listeners = startListeners →
      (HttpGetReader.onRequestResponse options s response).output = s.output ∧
      (HttpGetReader.onRequestResponse options s response).requests[i]?
        = some { r with listeners := noListeners } ∧
      (HttpGetReader.onRequestResponse options s response).requests.length
        = s.requests.length + 1 ∧
      (HttpGetReader.onRequestResponse options s response).current
        = some s.requests.length ∧
      (HttpGetReader.onRequestResponse options s response).requests[s.requests.length]?
        = some { url := r.url, qs := r.qs, headers := r.headers, gzip := true
                 listeners := startListeners, destroyCount := 0 } ∧
      (HttpGetReader.onRequestResponse options s response).transform = none) := by
  constructor
  · intro options s response v i r hv hb hres hcur hreq hurl hqs hhd hlis
    have hreduce : PagedHttpGetReader.onRequestResponse options s response
        = PagedHttpGetReader._startRequest (PagedHttpGetReader.detachFromStreams s) := by
      unfold PagedHttpGetReader.onRequestResponse
      rw [hv]
      dsimp only
      rw [hb]
      simp only [Bool.false_eq_true, if_false]
      rw [hres]
    rw [hreduce]
    have hlen := PagedHttpGetReader.detachFromStreams_requests_length s
    have hi : i < s.requests.length := (List.getElem?_eq_some.mp hreq).1
    refine ⟨?_, ?_, ?_, ?_, ?_, ?_⟩
    · rw [PagedHttpGetReader.startRequest_output, PagedHttpGetReader.detachFromStreams_output]
    · show ((PagedHttpGetReader.detachFromStreams s).requests ++ [_])[i]? = _
      rw [List.getElem?_append_left (by rw [hlen]; exact hi),
        PagedHttpGetReader.detachFromStreams_requests_of_current s i hcur,
        updateAt_getElem_self _ hreq, hlis]
      rfl
    · show ((PagedHttpGetReader.detachFromStreams s).requests ++ [_]).length = _
      simp [hlen]
    · show some (PagedHttpGetReader.detachFromStreams s).requests.length = _
      rw [hlen]
    · show ((PagedHttpGetReader.detachFromStreams s).requests ++ [_])[s.requests.length]? = _
      rw [← hlen, List.getElem?_concat_length]
      rw [hurl, hqs, hhd]
      rw [PagedHttpGetReader.detachFromStreams_url, PagedHttpGetReader.detachFromStreams_query,
        PagedHttpGetReader.detachFromStreams_headers]
    · show (PagedHttpGetReader.detachFromStreams s).currentTransform = none
      exact PagedHttpGetReader.detachFromStreams_currentTransform s
  · intro options s response v i r hv hb hres hcur hreq hurl hqs hhd hlis
    have hreduce : HttpGetReader.onRequestResponse options s response
        = HttpGetReader._startRequest (HttpGetReader.detachFromStreams s) := by
      unfold HttpGetReader.onRequestResponse
      rw [hv]
      dsimp only
      rw [hb]
      simp only [Bool.false_eq_true, if_false]
      rw [hres]
    rw [hreduce]
    have hlen := HttpGetReader.detachFromStreams_requests_length_single s
    have hi : i < s.requests.length := (List.getElem?_eq_some.mp hreq).1
    refine ⟨?_, ?_, ?_, ?_, ?_, ?_⟩
    · show (HttpGetReader.detachFromStreams s).output = s.output
      exact HttpGetReader.detachFromStreams_output_single s
    · show ((HttpGetReader.detachFromStreams s).requests ++ [_])[i]? = _
      rw [List.getElem?_append_left (by rw [hlen]; exact hi),
        HttpGetReader.detachFromStreams_requests_of_current_single s i hcur,
        updateAt_getElem_self _ hreq, hlis]
      rfl
    · show ((HttpGetReader.detachFromStreams s).requests ++ [_]).length = _
      simp [hlen]
    · show some (HttpGetReader.detachFromStreams s).requests.length = _
      rw [hlen]
    · show ((HttpGetReader.detachFromStreams s).requests ++ [_])[s.requests.length]? = _
      rw [← hlen, List.getElem?_concat_length]
      rw [hurl, hqs, hhd]
      rw [HttpGetReader.detachFromStreams_url_single, HttpGetReader.detachFromStreams_query_single,
        HttpGetReader.detachFromStreams_headers_single]
    · show (HttpGetReader.detachFromStreams s).transform = none
      exact HttpGetReader.detachFromStreams_transform_single s

/-- Witness for C6: a concrete 429 under the default policy retries both
readers with an identical request and unchanged output; on a single
reader with a transform configured, the retry nulls the transform
reference. -/
theorem C6_witness :
    (PagedHttpGetReader.onRequestResponse pagedDefaultOptions demoPagedInFlight resp429).output
      = demoPagedInFlight.output ∧
    (PagedHttpGetReader.onRequestResponse pagedDefaultOptions demoPagedInFlight resp429).requests.length
      = 2 ∧
    (PagedHttpGetReader.onRequestResponse pagedDefaultOptions demoPagedInFlight resp429).current
      = some 1 ∧
    (PagedHttpGetReader.onRequestResponse pagedDefaultOptions demoPagedInFlight resp429).requests[1]?
      = some { url := "http://dataplug.io/data/1", qs := [("page", "1")], headers := []
               gzip := true, listeners := startListeners, destroyCount := 0 } ∧
    (HttpGetReader.onRequestResponse httpDefaultOptions demoHttpInFlight resp429).output
      = demoHttpInFlight.output ∧
    (HttpGetReader.onRequestResponse httpDefaultOptions demoHttpInFlight resp429).requests.length
      = 2 ∧
    (HttpGetReader.onRequestResponse httpDefaultOptions demoHttpWithTransform resp429).transform
      = none := by
  have hp := C6_retry_identical.1 pagedDefaultOptions demoPagedInFlight resp429
    (JsValue.jsBool false) 0
    { url := "http://dataplug.io/data/1", qs := [("page", "1")], headers := []
      gzip := true, listeners := startListeners, destroyCount := 0 }
    rfl rfl rfl rfl rfl rfl rfl rfl rfl
  have hs := C6_retry_identical.2 httpDefaultOptions demoHttpInFlight resp429
    (JsValue.jsBool false) 0
    { url := "http://dataplug.io/data", qs := [], headers := []
      gzip := true, listeners := startListeners, destroyCount := 0 }
    rfl rfl rfl rfl rfl rfl rfl rfl rfl
  have hst := C6_retry_identical.2 httpDefaultOptions demoHttpWithTransform resp429
    (JsValue.jsBool false) 0
    { url := "http://dataplug.io/data", qs := [], headers := []
      gzip := true, listeners := startListeners, destroyCount := 0 }
    rfl rfl rfl rfl rfl rfl rfl rfl rfl
  exact ⟨hp.1, hp.2.2.1, hp.2.2.2.1, hp.2.2.2.2.1, hs.1, hs.2.2.1, hst.2.2.2.2.2⟩

theorem Alias.readObj_append_lt (h : Alias.Heap) (x : Obj) {r : Nat} (hr : r < h.length) :
    Alias.readObj (h ++ [x]) r = Alias.readObj h r := by
  unfold Alias.readObj
  rw [List.getElem?_append_left hr]

theorem Alias.readObj_append_length (h : Alias.Heap) (x : Obj) :
    Alias.readObj (h ++ [x]) h.length = x := by
  unfold Alias.readObj
  rw [List.getElem?_concat_length]
  rfl

theorem Alias.readObj_writeObj_ne (h : Alias.Heap) (v : Obj) {i j : Nat} (hij : i ≠ j) :
    Alias.readObj (Alias.writeObj h i v) j = Alias.readObj h j := by
  unfold Alias.readObj Alias.writeObj
  rw [List.getElem?_set_ne hij]

theorem HttpGetReader.startRequest_query (s : HttpGetReader.State) :
    (HttpGetReader._startRequest s).query = s.query := rfl

theorem HttpGetReader.startRequest_headers (s : HttpGetReader.State) :
    (HttpGetReader._startRequest s).headers = s.headers := rfl

theorem HttpGetReader.destroy_query (s : HttpGetReader.State) :
    (HttpGetReader._destroy s).query = s.query := by
  unfold HttpGetReader._destroy
  split
  case h_1 => simp [HttpGetReader.detachFromStreams_query_single]
  case h_2 => rfl

theorem HttpGetReader.destroy_headers (s : HttpGetReader.State) :
    (HttpGetReader._destroy s).headers = s.headers := by
  unfold HttpGetReader._destroy
  split
  case h_1 => simp [HttpGetReader.detachFromStreams_headers_single]
  case h_2 => rfl

theorem HttpGetReader.onRequestError_query (options : HttpGetReader.Options)
    (s : HttpGetReader.State) (e : String) :
    (HttpGetReader.onRequestError options s e).query = s.query := by
  unfold HttpGetReader.onRequestError
  split
  · rfl
  · split
    · simp [HttpGetReader.pushNull, HttpGetReader.detachFromStreams_query_single]
    · exact HttpGetReader.endTransform_query s

theorem HttpGetReader.onRequestError_headers (options : HttpGetReader.Options)
    (s : HttpGetReader.State) (e : String) :
    (HttpGetReader.onRequestError options s e).headers = s.headers := by
  unfold HttpGetReader.onRequestError
  split
  · rfl
  · split
    · simp [HttpGetReader.pushNull, HttpGetReader.detachFromStreams_headers_single]
    · exact HttpGetReader.endTransform_headers s

theorem HttpGetReader.onRequestEnd_query (s : HttpGetReader.State) :
    (HttpGetReader.onRequestEnd s).query = s.query := by
  unfold HttpGetReader.onRequestEnd
  split
  · simp [HttpGetReader.pushNull, HttpGetReader.detachFromStreams_query_single]
  · exact HttpGetReader.endTransform_query s

theorem HttpGetReader.onRequestEnd_headers (s : HttpGetReader.State) :
    (HttpGetReader.onRequestEnd s).headers = s.headers := by
  unfold HttpGetReader.onRequestEnd
  split
  · simp [HttpGetReader.pushNull, HttpGetReader.detachFromStreams_headers_single]
  · exact HttpGetReader.endTransform_headers s

theorem HttpGetReader.onRequestClose_query (s : HttpGetReader.State) :
    (HttpGetReader.onRequestClose s).query = s.query := by
  unfold HttpGetReader.onRequestClose
  split
  · simp [HttpGetReader.pushNull, HttpGetReader.detachFromStreams_query_single]
  · exact HttpGetReader.endTransform_query s

theorem HttpGetReader.onRequestClose_headers (s : HttpGetReader.State) :
    (HttpGetReader.onRequestClose s).headers = s.headers := by
  unfold HttpGetReader.onRequestClose
  split
  · simp [HttpGetReader.pushNull, HttpGetReader.detachFromStreams_headers_single]
  · exact HttpGetReader.endTransform_headers s

theorem HttpGetReader.onRequestData_query (s : HttpGetReader.State) (c : String) :
    (HttpGetReader.onRequestData s c).query = s.query := by
  unfold HttpGetReader.onRequestData
  split <;> rfl

theorem HttpGetReader.onRequestData_headers (s : HttpGetReader.State) (c : String) :
    (HttpGetReader.onRequestData s c).headers = s.headers := by
  unfold HttpGetReader.onRequestData
  split <;> rfl

theorem HttpGetReader.onRequestResponse_query (options : HttpGetReader.Options)
    (s : HttpGetReader.State) (response : Response) :
    (HttpGetReader.onRequestResponse options s response).query = s.query := by
  unfold HttpGetReader.onRequestResponse
  cases hh : options.responseHandler response with
  | throws e =>
    simp [HttpGetReader.pushNull, HttpGetReader.emitError, HttpGetReader.detachFromStreams_query_single]
  | returns v =>
    dsimp only
    split
    · exact HttpGetReader.attachAccept_query s
    · cases hres : v.resolution with
      | fulfilled t =>
        cases t
        · simp [HttpGetReader._startRequest, HttpGetReader.detachFromStreams_query_single]
        · simp [HttpGetReader.pushNull, HttpGetReader.emitError,
            HttpGetReader.detachFromStreams_query_single]
      | rejected e =>
        simp [HttpGetReader.pushNull, HttpGetReader.emitError,
          HttpGetReader.detachFromStreams_query_single]

theorem HttpGetReader.onRequestResponse_headers (options : HttpGetReader.Options)
    (s : HttpGetReader.State) (response : Response) :
    (HttpGetReader.onRequestResponse options s response).headers = s.headers := by
  unfold HttpGetReader.onRequestResponse
  cases hh : options.responseHandler response with
  | throws e =>
    simp [HttpGetReader.pushNull, HttpGetReader.emitError, HttpGetReader.detachFromStreams_headers_single]
  | returns v =>
    dsimp only
    split
    · exact HttpGetReader.attachAccept_headers s
    · cases hres : v.resolution with
      | fulfilled t =>
        cases t
        · simp [HttpGetReader._startRequest, HttpGetReader.detachFromStreams_headers_single]
        · simp [HttpGetReader.pushNull, HttpGetReader.emitError,
            HttpGetReader.detachFromStreams_headers_single]
      | rejected e =>
        simp [HttpGetReader.pushNull, HttpGetReader.emitError,
          HttpGetReader.detachFromStreams_headers_single]

theorem HttpGetReader.onTransformError_query (options : HttpGetReader.Options)
    (s : HttpGetReader.State) (e : String) :
    (HttpGetReader.onTransformError options s e).query = s.query := by
  unfold HttpGetReader.onTransformError
  split
  · rfl
  · exact HttpGetReader.endTransform_query s

theorem HttpGetReader.onTransformError_headers (options : HttpGetReader.Options)
    (s : HttpGetReader.State) (e : String) :
    (HttpGetReader.onTransformError options s e).headers = s.headers := by
  unfold HttpGetReader.onTransformError
  split
  · rfl
  · exact HttpGetReader.endTransform_headers s

theorem HttpGetReader.onTransformEnd_query (s : HttpGetReader.State) :
    (HttpGetReader.onTransformEnd s).query = s.query := by
  simp [HttpGetReader.onTransformEnd, HttpGetReader.pushNull,
    HttpGetReader.detachFromStreams_query_single]

theorem HttpGetReader.onTransformEnd_headers (s : HttpGetReader.State) :
    (HttpGetReader.onTransformEnd s).headers = s.headers := by
  simp [HttpGetReader.onTransformEnd, HttpGetReader.pushNull,
    HttpGetReader.detachFromStreams_headers_single]

theorem HttpGetReader.onTransformClose_query (s : HttpGetReader.State) :
    (HttpGetReader.onTransformClose s).query = s.query := by
  simp [HttpGetReader.onTransformClose, HttpGetReader.pushNull,
    HttpGetReader.detachFromStreams_query_single]

theorem HttpGetReader.onTransformClose_headers (s : HttpGetReader.State) :
    (HttpGetReader.onTransformClose s).headers = s.headers := by
  simp [HttpGetReader.onTransformClose, HttpGetReader.pushNull,
    HttpGetReader.detachFromStreams_headers_single]

/-- Counterexample for C7: the claim says the request descriptor state of
`HttpGetReader` or `PagedHttpGetReader` is deep-copied on construction.
`HttpGetReader` merges its options with a shallow `Object.assign` only:
on a concrete heap holding one caller object, construction returns the
caller's own reference (reference 0) as the stored query reference and
allocates nothing — there is no copy, deep or otherwise. -/
theorem C7_counterexample :
    Alias.httpConstructRefs [[("a", "1")]] (some 0) none
      = ([[("a", "1")]], { queryRef := some 0, headersRef := none }) := rfl

/-- C7 amended: `PagedHttpGetReader` deep-copies `query`/`headers` on
construction — the stored references are freshly allocated, the caller's
objects are untouched by construction, the clones start value-equal, and
any later write through the streamer's references (in particular the
pagination continuation rewriting the page descriptor) leaves the
caller's objects unchanged.  `HttpGetReader` stores the caller's objects
by reference without any copy, but no operation of that reader ever
rewrites its `query`/`headers`, so the caller's objects are never mutated
by either streamer. -/
theorem C7_descriptor_copying :
    (∀ (h : Alias.Heap) (q hr : Nat) (h2 : Alias.Heap) (refs : Alias.Refs),
      q < h.length → hr < h.length →
      Alias.pagedConstructRefs h (some q) (some hr) = (h2, refs) →
      refs.queryRef = some h.length ∧
      refs.headersRef = some (h.length + 1) ∧
      h.length ≠ q ∧ h.length ≠ hr ∧ h.length + 1 ≠ q ∧ h.length + 1 ≠ hr ∧
      Alias.readObj h2 q = Alias.readObj h q ∧
      Alias.readObj h2 hr = Alias.readObj h hr ∧
      Alias.readObj h2 h.length = Alias.readObj h q ∧
      Alias.readObj h2 (h.length + 1) = Alias.readObj h hr ∧
      (∀ v : Obj,
        Alias.readObj (Alias.writeObj h2 h.length v) q = Alias.readObj h q ∧
        Alias.readObj (Alias.writeObj h2 h.length v) hr = Alias.readObj h hr ∧
        Alias.readObj (Alias.writeObj h2 (h.length + 1) v) q = Alias.readObj h q ∧
        Alias.readObj (Alias.writeObj h2 (h.length + 1) v) hr = Alias.readObj h hr)) ∧
    (∀ (h : Alias.Heap) (q hr : Option Nat),
      Alias.httpConstructRefs h q hr = (h, { queryRef := q, headersRef := hr })) ∧
    (∀ (options : HttpGetReader.Options) (s : HttpGetReader.State) (e c : String)
        (response : Response),
      (HttpGetReader._startRequest s).query = s.query ∧
      (HttpGetReader._startRequest s).headers = s.headers ∧
      (HttpGetReader.detachFromStreams s).query = s.query ∧
      (HttpGetReader.detachFromStreams s).headers = s.headers ∧
      (HttpGetReader._destroy s).query = s.query ∧
      (HttpGetReader._destroy s).headers = s.headers ∧
      (HttpGetReader.onRequestError options s e).query = s.query ∧
      (HttpGetReader.onRequestError options s e).headers = s.headers ∧
      (HttpGetReader.onRequestClose s).query = s.query ∧
      (HttpGetReader.onRequestClose s).headers = s.headers ∧
      (HttpGetReader.onRequestEnd s).query = s.query ∧
      (HttpGetReader.onRequestEnd s).headers = s.headers ∧
      (HttpGetReader.onRequestData s c).query = s.query ∧
      (HttpGetReader.onRequestData s c).headers = s.headers ∧
      (HttpGetReader.onRequestResponse options s response).query = s.query ∧
      (HttpGetReader.onRequestResponse options s response).headers = s.headers ∧
      (HttpGetReader.onTransformError options s e).query = s.query ∧
      (HttpGetReader.onTransformError options s e).headers = s.headers ∧
      (HttpGetReader.onTransformClose s).query = s.query ∧
      (HttpGetReader.onTransformClose s).headers = s.headers ∧
      (HttpGetReader.onTransformEnd s).query = s.query ∧
      (HttpGetReader.onTransformEnd s).headers = s.headers ∧
      (HttpGetReader.onTransformData s c).query = s.query ∧
      (HttpGetReader.onTransformData s c).headers = s.headers) := by
  refine ⟨?_, ?_, ?_⟩
  · intro h q hr h2 refs hq hhr hres
    have hcomp : Alias.pagedConstructRefs h (some q) (some hr)
        = (h ++ [Alias.readObj h q] ++ [Alias.readObj (h ++ [Alias.readObj h q]) hr],
           { queryRef := some h.length, headersRef := some (h.length + 1) }) := by
      simp [Alias.pagedConstructRefs, Alias.cloneDeep]
    rw [hcomp] at hres
    injection hres with hheap hrefs
    subst hheap
    subst hrefs
    have hq1 : q < (h ++ [Alias.readObj h q]).length := by
      simp
      omega
    have hhr1 : hr < (h ++ [Alias.readObj h q]).length := by
      simp
      omega
    have hread_q : Alias.readObj (h ++ [Alias.readObj h q]
        ++ [Alias.readObj (h ++ [Alias.readObj h q]) hr]) q = Alias.readObj h q := by
      rw [Alias.readObj_append_lt _ _ hq1, Alias.readObj_append_lt _ _ hq]
    have hread_hr : Alias.readObj (h ++ [Alias.readObj h q]
        ++ [Alias.readObj (h ++ [Alias.readObj h q]) hr]) hr = Alias.readObj h hr := by
      rw [Alias.readObj_append_lt _ _ hhr1, Alias.readObj_append_lt _ _ hhr]
    have hread_clone_q : Alias.readObj (h ++ [Alias.readObj h q]
        ++ [Alias.readObj (h ++ [Alias.readObj h q]) hr]) h.length = Alias.readObj h q := by
      rw [Alias.readObj_append_lt _ _ (by simp), Alias.readObj_append_length]
    have hread_clone_hr : Alias.readObj (h ++ [Alias.readObj h q]
        ++ [Alias.readObj (h ++ [Alias.readObj h q]) hr]) (h.length + 1)
        = Alias.readObj h hr := by
      rw [show h.length + 1 = (h ++ [Alias.readObj h q]).length by simp,
        Alias.readObj_append_length, Alias.readObj_append_lt _ _ hhr]
    refine ⟨rfl, rfl, by omega, by omega, by omega, by omega,
      hread_q, hread_hr, hread_clone_q, hread_clone_hr, ?_⟩
    intro v
    refine ⟨?_, ?_, ?_, ?_⟩
    · rw [Alias.readObj_writeObj_ne _ _ (by omega), hread_q]
    · rw [Alias.readObj_writeObj_ne _ _ (by omega), hread_hr]
    · rw [Alias.readObj_writeObj_ne _ _ (by omega), hread_q]
    · rw [Alias.readObj_writeObj_ne _ _ (by omega), hread_hr]
  · intro h q hr
    rfl
  · intro options s e c response
    exact ⟨rfl, rfl, HttpGetReader.detachFromStreams_query_single s,
      HttpGetReader.detachFromStreams_headers_single s,
      HttpGetReader.destroy_query s, HttpGetReader.destroy_headers s,
      HttpGetReader.onRequestError_query options s e,
      HttpGetReader.onRequestError_headers options s e,
      HttpGetReader.onRequestClose_query s, HttpGetReader.onRequestClose_headers s,
      HttpGetReader.onRequestEnd_query s, HttpGetReader.onRequestEnd_headers s,
      HttpGetReader.onRequestData_query s c, HttpGetReader.onRequestData_headers s c,
      HttpGetReader.onRequestResponse_query options s response,
      HttpGetReader.onRequestResponse_headers options s response,
      HttpGetReader.onTransformError_query options s e,
      HttpGetReader.onTransformError_headers options s e,
      HttpGetReader.onTransformClose_query s, HttpGetReader.onTransformClose_headers s,
      HttpGetReader.onTransformEnd_query s, HttpGetReader.onTransformEnd_headers s,
      rfl, rfl⟩

/-- Witness for C7: a concrete two-object heap; the paged constructor
allocates clones at fresh references 2 and 3, and writing through them
leaves both caller objects unchanged. -/
theorem C7_witness :
    (Alias.pagedConstructRefs [[("a", "1")], [("b", "2")]] (some 0) (some 1)).2.queryRef
      = some 2 ∧
    (Alias.pagedConstructRefs [[("a", "1")], [("b", "2")]] (some 0) (some 1)).2.headersRef
      = some 3 ∧
    (∀ v : Obj,
      Alias.readObj
        (Alias.writeObj (Alias.pagedConstructRefs [[("a", "1")], [("b", "2")]]
          (some 0) (some 1)).1 2 v) 0 = [("a", "1")] ∧
      Alias.readObj
        (Alias.writeObj (Alias.pagedConstructRefs [[("a", "1")], [("b", "2")]]
          (some 0) (some 1)).1 3 v) 1 = [("b", "2")]) := by
  have h := C7_descriptor_copying.1 [[("a", "1")], [("b", "2")]] 0 1
    (Alias.pagedConstructRefs [[("a", "1")], [("b", "2")]] (some 0) (some 1)).1
    (Alias.pagedConstructRefs [[("a", "1")], [("b", "2")]] (some 0) (some 1)).2
    (by decide) (by decide) rfl
  exact ⟨h.1, h.2.1, fun v => ⟨(h.2.2.2.2.2.2.2.2.2.2 v).1, (h.2.2.2.2.2.2.2.2.2.2 v).2.2.2⟩⟩

theorem PagedHttpGetReader.destroy_current (s : PagedHttpGetReader.State) :
    (PagedHttpGetReader._destroy s).current = none ∨ PagedHttpGetReader._destroy s = s := by
  unfold PagedHttpGetReader._destroy
  split
  · left
    dsimp only
    exact PagedHttpGetReader.detachFromStreams_current s
  · right
    rfl

theorem HttpGetReader.destroy_current_single (s : HttpGetReader.State) :
    (HttpGetReader._destroy s).current = none ∨ HttpGetReader._destroy s = s := by
  unfold HttpGetReader._destroy
  split
  · left
    dsimp only
    exact HttpGetReader.detachFromStreams_current_single s
  · right
    rfl

theorem PagedHttpGetReader.detachFromStreams_transforms_of_current
    (s : PagedHttpGetReader.State) (j : Nat) (h : s.currentTransform = some j) :
    (PagedHttpGetReader.detachFromStreams s).transforms
      = updateAt s.transforms j (fun t => { t with listeners := removeOneEachTrans t.listeners }) := by
  unfold PagedHttpGetReader.detachFromStreams
  unfold PagedHttpGetReader.detachTransformPart
  rw [PagedHttpGetReader.detachRequestPart_currentTransform, h]
  dsimp only
  rw [PagedHttpGetReader.detachRequestPart_transforms]

/-- Counterexample for C8: the claim says destroying the stream while a
request is in flight detaches all listeners from the transport request.
After an accepted response the `close` handler is registered twice (once
at request start, once on the accept path) while `detachFromStreams`
removes only one registration per event kind, so on a concrete run
(construct, start, accept a 200, destroy) the destroyed request is left
with one live `close` registration. -/
theorem C8_counterexample :
    (PagedHttpGetReader._destroy demoPagedAccepted).requests[0]?
      = some { url := "http://dataplug.io/data/1", qs := [("page", "1")], headers := []
               gzip := true
               listeners := { onError := 0, onClose := 1, onResponse := 0, onData := 0, onEnd := 0 }
               destroyCount := 1 } := by
  decide

/-- C8 amended: destroying the stream while a request is in flight
detaches one registration per event kind and calls `destroy` on the
captured transport exactly once (a second destruction is a no-op, since
the request reference was nulled), emits no further chunk, end or error
event, and fully detaches the transform; all request listeners are
removed whenever destruction happens before the response is accepted, but
after acceptance one `close` registration remains (it was registered
twice and removed once).  The same holds for the single-request reader. -/
theorem C8_destroy_cancellation :
    (∀ (s : PagedHttpGetReader.State) (i : Nat) (r : ReqHandle),
      s.current = some i → s.requests[i]? = some r → r.listeners = startListeners →
      (PagedHttpGetReader._destroy s).requests[i]?
        = some { r with listeners := noListeners, destroyCount := r.destroyCount + 1 } ∧
      (PagedHttpGetReader._destroy s).current = none) ∧
    (∀ (s : PagedHttpGetReader.State) (i : Nat) (r : ReqHandle),
      s.current = some i → s.requests[i]? = some r →
      r.listeners = attachAcceptReq startListeners →
      (PagedHttpGetReader._destroy s).requests[i]?
        = some { r with
            listeners := { onError := 0, onClose := 1, onResponse := 0, onData := 0, onEnd := 0 }
            destroyCount := r.destroyCount + 1 }) ∧
    (∀ (s : PagedHttpGetReader.State) (i j : Nat) (t : TransHandle),
      s.current = some i → s.currentTransform = some j → s.transforms[j]? = some t →
      t.listeners = { onData := 1, onError := 1, onClose := 1, onEnd := 1, onComplete := 1 } →
      (PagedHttpGetReader._destroy s).transforms[j]?
        = some { t with listeners := noTransListeners } ∧
      (PagedHttpGetReader._destroy s).currentTransform = none) ∧
    (∀ s : PagedHttpGetReader.State, (PagedHttpGetReader._destroy s).output = s.output) ∧
    (∀ s : PagedHttpGetReader.State,
      PagedHttpGetReader._destroy (PagedHttpGetReader._destroy s)
        = PagedHttpGetReader._destroy s) ∧
    (∀ (s : HttpGetReader.State) (i : Nat) (r : ReqHandle),
      s.current = some i → s.requests[i]? = some r → r.listeners = startListeners →
      (HttpGetReader._destroy s).requests[i]?
        = some { r with listeners := noListeners, destroyCount := r.destroyCount + 1 } ∧
      (HttpGetReader._destroy s).current = none) ∧
    (∀ (s : HttpGetReader.State) (i : Nat) (r : ReqHandle),
      s.current = some i → s.requests[i]? = some r →
      r.listeners = attachAcceptReq startListeners →
      (HttpGetReader._destroy s).requests[i]?
        = some { r with
            listeners := { onError := 0, onClose := 1, onResponse := 0, onData := 0, onEnd := 0 }
            destroyCount := r.destroyCount + 1 }) ∧
    (∀ (s : HttpGetReader.State) (i j : Nat) (t : TransHandle),
      s.current = some i → s.transform = some j → s.transforms[j]? = some t →
      t.listeners = { onData := 1, onError := 1, onClose := 1, onEnd := 1, onComplete := 0 } →
      (HttpGetReader._destroy s).transforms[j]?
        = some { t with listeners := noTransListeners } ∧
      (HttpGetReader._destroy s).transform = none) ∧
    (∀ s : HttpGetReader.State, (HttpGetReader._destroy s).output = s.output) ∧
    (∀ s : HttpGetReader.State,
      HttpGetReader._destroy (HttpGetReader._destroy s) = HttpGetReader._destroy s) := by
  refine ⟨?_, ?_, ?_, ?_, ?_, ?_, ?_, ?_, ?_, ?_⟩
  · intro s i r hcur hreq hlis
    unfold PagedHttpGetReader._destroy
    rw [hcur]
    dsimp only
    constructor
    · show (updateAt (PagedHttpGetReader.detachFromStreams s).requests i _)[i]? = _
      rw [PagedHttpGetReader.detachFromStreams_requests_of_current s i hcur]
      rw [updateAt_getElem_self _ (updateAt_getElem_self _ hreq), hlis]
      rfl
    · show (PagedHttpGetReader.detachFromStreams s).current = none
      exact PagedHttpGetReader.detachFromStreams_current s
  · intro s i r hcur hreq hlis
    unfold PagedHttpGetReader._destroy
    rw [hcur]
    dsimp only
    show (updateAt (PagedHttpGetReader.detachFromStreams s).requests i _)[i]? = _
    rw [PagedHttpGetReader.detachFromStreams_requests_of_current s i hcur]
    rw [updateAt_getElem_self _ (updateAt_getElem_self _ hreq), hlis]
    rfl
  · intro s i j t hcur hct htr hlis
    unfold PagedHttpGetReader._destroy
    rw [hcur]
    dsimp only
    constructor
    · show (PagedHttpGetReader.detachFromStreams s).transforms[j]? = _
      rw [PagedHttpGetReader.detachFromStreams_transforms_of_current s j hct]
      rw [updateAt_getElem_self _ htr, hlis]
      rfl
    · show (PagedHttpGetReader.detachFromStreams s).currentTransform = none
      exact PagedHttpGetReader.detachFromStreams_currentTransform s
  · exact PagedHttpGetReader.destroy_output
  · intro s
    rcases PagedHttpGetReader.destroy_current s with hnone | heq
    · set t := PagedHttpGetReader._destroy s with ht
      unfold PagedHttpGetReader._destroy
      rw [hnone]
    · rw [heq]
      exact heq
  · intro s i r hcur hreq hlis
    unfold HttpGetReader._destroy
    rw [hcur]
    dsimp only
    constructor
    · show (updateAt (HttpGetReader.detachFromStreams s).requests i _)[i]? = _
      rw [HttpGetReader.detachFromStreams_requests_of_current_single s i hcur]
      rw [updateAt_getElem_self _ (updateAt_getElem_self _ hreq), hlis]
      rfl
    · show (HttpGetReader.detachFromStreams s).current = none
      exact HttpGetReader.detachFromStreams_current_single s
  · intro s i r hcur hreq hlis
    unfold HttpGetReader._destroy
    rw [hcur]
    dsimp only
    show (updateAt (HttpGetReader.detachFromStreams s).requests i _)[i]? = _
    rw [HttpGetReader.detachFromStreams_requests_of_current_single s i hcur]
    rw [updateAt_getElem_self _ (updateAt_getElem_self _ hreq), hlis]
    rfl
  · intro s i j t hcur hj htr hlis
    unfold HttpGetReader._destroy
    rw [hcur]
    dsimp only
    constructor
    · show (HttpGetReader.detachFromStreams s).transforms[j]? = _
      rw [HttpGetReader.detachFromStreams_transforms_of_current_single s j hj]
      rw [updateAt_getElem_self _ htr, hlis]
      rfl
    · show (HttpGetReader.detachFromStreams s).transform = none
      exact HttpGetReader.detachFromStreams_transform_single s
  · intro s
    unfold HttpGetReader._destroy
    split
    case h_1 => simp [HttpGetReader.detachFromStreams_output_single]
    case h_2 => rfl
  · intro s
    rcases HttpGetReader.destroy_current_single s with hnone | heq
    · set t := HttpGetReader._destroy s with ht
      unfold HttpGetReader._destroy
      rw [hnone]
    · rw [heq]
      exact heq

/-- Witness for C8: destroying a concrete in-flight reader zeroes all its
listeners and bumps the destroy count to one; with an accepted page and a
live transform the transform is fully detached and its reference nulled;
destruction is idempotent on the concrete states — for both readers. -/
theorem C8_witness :
    (PagedHttpGetReader._destroy demoPagedInFlight).requests[0]?
      = some { url := "http://dataplug.io/data/1", qs := [("page", "1")], headers := []
               gzip := true, listeners := noListeners, destroyCount := 1 } ∧
    (PagedHttpGetReader._destroy demoPagedInFlight).current = none ∧
    (PagedHttpGetReader._destroy demoPagedFactoryAccepted).transforms[1]?
      = some { listeners := noTransListeners, ended := false, pipedFrom := some 0 } ∧
    (PagedHttpGetReader._destroy demoPagedInFlight).output = demoPagedInFlight.output ∧
    PagedHttpGetReader._destroy (PagedHttpGetReader._destroy demoPagedInFlight)
      = PagedHttpGetReader._destroy demoPagedInFlight ∧
    (HttpGetReader._destroy demoHttpInFlight).requests[0]?
      = some { url := "http://dataplug.io/data", qs := [], headers := []
               gzip := true, listeners := noListeners, destroyCount := 1 } ∧
    (HttpGetReader._destroy demoHttpInFlight).current = none ∧
    (HttpGetReader._destroy demoHttpAccepted).requests[0]?
      = some { url := "http://dataplug.io/data", qs := [], headers := []
               gzip := true
               listeners := { onError := 0, onClose := 1, onResponse := 0, onData := 0, onEnd := 0 }
               destroyCount := 1 } ∧
    (HttpGetReader._destroy demoHttpAccepted).transforms[0]?
      = some { listeners := noTransListeners, ended := false, pipedFrom := some 0 } ∧
    (HttpGetReader._destroy demoHttpAccepted).transform = none ∧
    (HttpGetReader._destroy demoHttpInFlight).output = demoHttpInFlight.output ∧
    HttpGetReader._destroy (HttpGetReader._destroy demoHttpInFlight)
      = HttpGetReader._destroy demoHttpInFlight := by
  have h1 := C8_destroy_cancellation.1 demoPagedInFlight 0
    { url := "http://dataplug.io/data/1", qs := [("page", "1")], headers := []
      gzip := true, listeners := startListeners, destroyCount := 0 }
    rfl rfl rfl
  have h3 := C8_destroy_cancellation.2.2.1 demoPagedFactoryAccepted 0 1
    { listeners := { onData := 1, onError := 1, onClose := 1, onEnd := 1, onComplete := 1 }
      ended := false, pipedFrom := some 0 }
    rfl rfl (by decide) rfl
  have h6 := C8_destroy_cancellation.2.2.2.2.2.1 demoHttpInFlight 0
    { url := "http://dataplug.io/data", qs := [], headers := []
      gzip := true, listeners := startListeners, destroyCount := 0 }
    rfl rfl rfl
  have h7 := C8_destroy_cancellation.2.2.2.2.2.2.1 demoHttpAccepted 0
    { url := "http://dataplug.io/data", qs := [], headers := []
      gzip := true, listeners := attachAcceptReq startListeners, destroyCount := 0 }
    rfl rfl rfl
  have h8 := C8_destroy_cancellation.2.2.2.2.2.2.2.1 demoHttpAccepted 0 0
    { listeners := { onData := 1, onError := 1, onClose := 1, onEnd := 1, onComplete := 0 }
      ended := false, pipedFrom := some 0 }
    rfl rfl (by decide) rfl
  exact ⟨h1.1, h1.2, h3.1, C8_destroy_cancellation.2.2.2.1 demoPagedInFlight,
    C8_destroy_cancellation.2.2.2.2.1 demoPagedInFlight,
    h6.1, h6.2, h7, h8.1, h8.2,
    C8_destroy_cancellation.2.2.2.2.2.2.2.2.1 demoHttpInFlight,
    C8_destroy_cancellation.2.2.2.2.2.2.2.2.2 demoHttpInFlight⟩

/-- Counterexample for C9: the claim says every synchronously truthy
non-boolean policy result makes the stream fail with
`responseHandler should not return promised true`.  A promise that later
fulfills with `false` is synchronously truthy (it is an object) and not a
boolean, yet on a concrete run the stream does not fail: no error or end
is emitted and the request is simply retried (a second request is
issued). -/
theorem C9_counterexample :
    (PagedHttpGetReader.onRequestResponse
      { transformFactory := false, responseHandler := promisedFalseHandler, abortOnError := false }
      demoPagedInFlight resp200).output = demoPagedInFlight.output ∧
    (PagedHttpGetReader.onRequestResponse
      { transformFactory := false, responseHandler := promisedFalseHandler, abortOnError := false }
      demoPagedInFlight resp200).requests.length = 2 := by
  constructor
  · rfl
  · rfl

/-- C9 amended: in `PagedHttpGetReader` a policy result is accepted only
when it is exactly the boolean `true`; every other result — in particular
every synchronously truthy non-boolean — enters the retry branch, where
`Promise.resolve` is awaited: a truthy resolution (which is forced for
every non-thenable value such as a number or object, since it resolves to
itself) fails the stream with
`responseHandler should not return promised true` instead of consuming
the body; a thenable resolving falsy retries the request; and a rejection
fails the stream with the rejection error. -/
theorem C9_strict_boolean_accept
    (options : PagedHttpGetReader.Options) (s : PagedHttpGetReader.State)
    (response : Response) (v : JsValue)
    (hv : options.responseHandler response = HandlerOutcome.returns v) :
    (v.isBooleanTrue = true →
      v = JsValue.jsBool true ∧
      PagedHttpGetReader.onRequestResponse options s response
        = (if options.transformFactory then
            PagedHttpGetReader.createTransform (PagedHttpGetReader.attachAcceptListeners s)
          else PagedHttpGetReader.attachAcceptListeners s)) ∧
    (v.isBooleanTrue = false →
      (∀ t : Bool, v = JsValue.plain t → v.resolution = Resolution.fulfilled t) ∧
      (v.resolution = Resolution.fulfilled true →
        (PagedHttpGetReader.onRequestResponse options s response).output
          = s.output ++ [OutEvent.err "responseHandler should not return promised true",
              OutEvent.eos]) ∧
      (v.resolution = Resolution.fulfilled false →
        (PagedHttpGetReader.onRequestResponse options s response).output = s.output ∧
        (PagedHttpGetReader.onRequestResponse options s response).requests.length
          = s.requests.length + 1) ∧
      (∀ e, v.resolution = Resolution.rejected e →
        (PagedHttpGetReader.onRequestResponse options s response).output
          = s.output ++ [OutEvent.err e, OutEvent.eos])) := by
  constructor
  · intro hb
    constructor
    · cases v with
      | jsBool b =>
        cases b
        · simp [JsValue.isBooleanTrue] at hb
        · rfl
      | thenable r => simp [JsValue.isBooleanTrue] at hb
      | plain t => simp [JsValue.isBooleanTrue] at hb
    · unfold PagedHttpGetReader.onRequestResponse
      rw [hv]
      dsimp only
      rw [hb]
      simp only [if_true]
  · intro hb
    have hred : PagedHttpGetReader.onRequestResponse options s response
        = (match v.resolution with
           | Resolution.fulfilled true =>
             PagedHttpGetReader.pushNull (PagedHttpGetReader.detachFromStreams
               (PagedHttpGetReader.emitError (PagedHttpGetReader.detachFromStreams s)
                 "responseHandler should not return promised true"))
           | Resolution.fulfilled false =>
             PagedHttpGetReader._startRequest (PagedHttpGetReader.detachFromStreams s)
           | Resolution.rejected e =>
             PagedHttpGetReader.pushNull (PagedHttpGetReader.detachFromStreams
               (PagedHttpGetReader.emitError (PagedHttpGetReader.detachFromStreams s) e))) := by
      unfold PagedHttpGetReader.onRequestResponse
      rw [hv]
      dsimp only
      rw [hb]
      simp only [Bool.false_eq_true, if_false]
    refine ⟨?_, ?_, ?_, ?_⟩
    · intro t hplain
      rw [hplain]
      rfl
    · intro hres
      rw [hred, hres]
      simp [PagedHttpGetReader.pushNull_output, PagedHttpGetReader.detachFromStreams_output,
        PagedHttpGetReader.emitError_output]
    · intro hres
      rw [hred, hres]
      constructor
      · simp [PagedHttpGetReader.startRequest_output, PagedHttpGetReader.detachFromStreams_output]
      · simp [PagedHttpGetReader._startRequest,
          PagedHttpGetReader.detachFromStreams_requests_length]
    · intro e hres
      rw [hred, hres]
      simp [PagedHttpGetReader.pushNull_output, PagedHttpGetReader.detachFromStreams_output,
        PagedHttpGetReader.emitError_output]

/-- Witness for C9: a policy returning the plain truthy non-boolean value
`1` (modelled as `JsValue.plain true`) is not accepted; its resolution is
itself, truthy, and the concrete stream fails with the
`responseHandler should not return promised true` error. -/
theorem C9_witness :
    (PagedHttpGetReader.onRequestResponse
      { transformFactory := false
        responseHandler := fun _ => HandlerOutcome.returns (JsValue.plain true)
        abortOnError := false }
      demoPagedInFlight resp200).output
      = demoPagedInFlight.output
        ++ [OutEvent.err "responseHandler should not return promised true", OutEvent.eos] := by
  have h := C9_strict_boolean_accept
    { transformFactory := false
      responseHandler := fun _ => HandlerOutcome.returns (JsValue.plain true)
      abortOnError := false }
    demoPagedInFlight resp200 (JsValue.plain true) rfl
  exact (h.2 rfl).2.1 rfl

theorem PagedHttpGetReader.attachAcceptListeners_transforms (s : PagedHttpGetReader.State) :
    (PagedHttpGetReader.attachAcceptListeners s).transforms = s.transforms := by
  unfold PagedHttpGetReader.attachAcceptListeners
  split <;> rfl

theorem PagedHttpGetReader.attachAcceptListeners_current (s : PagedHttpGetReader.State) :
    (PagedHttpGetReader.attachAcceptListeners s).current = s.current := by
  unfold PagedHttpGetReader.attachAcceptListeners
  split <;> rfl

/-- C10: when a `transformFactory` is configured, `PagedHttpGetReader`
invokes it exactly once during construction, solely to probe the output
stream's object mode, and discards that probe instance unused
(`this.transform = null`, the probe is never attached or piped); each
accepted response then invokes the factory exactly once more, attaching a
fresh, unused instance piped from the current request; and no other
operation of the machine ever invokes the factory, so the factory is
called once per accepted page plus once at construction. -/
theorem C10_transform_factory :
    (∀ (options : PagedHttpGetReader.Options) (url : String) (query headers : Option Obj),
      options.transformFactory = true →
      (PagedHttpGetReader.construct options url query headers).factoryCalls = 1 ∧
      (PagedHttpGetReader.construct options url query headers).currentTransform = none ∧
      (PagedHttpGetReader.construct options url query headers).transforms
        = [{ listeners := noTransListeners, ended := false, pipedFrom := none }]) ∧
    (∀ (options : PagedHttpGetReader.Options) (url : String) (query headers : Option Obj),
      options.transformFactory = false →
      (PagedHttpGetReader.construct options url query headers).factoryCalls = 0 ∧
      (PagedHttpGetReader.construct options url query headers).transforms = []) ∧
    (∀ (options : PagedHttpGetReader.Options) (s : PagedHttpGetReader.State)
        (response : Response),
      options.responseHandler response = HandlerOutcome.returns (JsValue.jsBool true) →
      options.transformFactory = true →
      (PagedHttpGetReader.onRequestResponse options s response).factoryCalls
        = s.factoryCalls + 1 ∧
      (PagedHttpGetReader.onRequestResponse options s response).currentTransform
        = some s.transforms.length ∧
      (PagedHttpGetReader.onRequestResponse options s response).transforms[s.transforms.length]?
        = some { listeners := { onData := 1, onError := 1, onClose := 1, onEnd := 1, onComplete := 1 }
                 ended := false, pipedFrom := s.current }) ∧
    (∀ (options : PagedHttpGetReader.Options) (s : PagedHttpGetReader.State)
        (response : Response) (v : JsValue) (nextPage : NextPage) (e c d : String)
        (data : Option String),
      (options.responseHandler response = HandlerOutcome.returns v → v.isBooleanTrue = false →
        (PagedHttpGetReader.onRequestResponse options s response).factoryCalls
          = s.factoryCalls) ∧
      (∀ e2, options.responseHandler response = HandlerOutcome.throws e2 →
        (PagedHttpGetReader.onRequestResponse options s response).factoryCalls
          = s.factoryCalls) ∧
      (options.transformFactory = false →
        (PagedHttpGetReader.onRequestResponse options s response).factoryCalls
          = s.factoryCalls) ∧
      (PagedHttpGetReader._startRequest s).factoryCalls = s.factoryCalls ∧
      (PagedHttpGetReader.detachFromStreams s).factoryCalls = s.factoryCalls ∧
      (PagedHttpGetReader._destroy s).factoryCalls = s.factoryCalls ∧
      (PagedHttpGetReader.proceedToNextPage nextPage s data).factoryCalls = s.factoryCalls ∧
      (PagedHttpGetReader.onRequestError options nextPage s e).factoryCalls = s.factoryCalls ∧
      (PagedHttpGetReader.onRequestClose nextPage s).factoryCalls = s.factoryCalls ∧
      (PagedHttpGetReader.onRequestEnd nextPage s).factoryCalls = s.factoryCalls ∧
      (PagedHttpGetReader.onRequestData s c).factoryCalls = s.factoryCalls ∧
      (PagedHttpGetReader.onTransformError options s e).factoryCalls = s.factoryCalls ∧
      (PagedHttpGetReader.onTransformClose s).factoryCalls = s.factoryCalls ∧
      (PagedHttpGetReader.onTransformEnd nextPage s).factoryCalls = s.factoryCalls ∧
      (PagedHttpGetReader.onTransformData s c).factoryCalls = s.factoryCalls ∧
      (PagedHttpGetReader.onTransformComplete nextPage s d).factoryCalls = s.factoryCalls) := by
  refine ⟨?_, ?_, ?_, ?_⟩
  · intro options url query headers hfac
    refine ⟨?_, rfl, ?_⟩ <;> simp [PagedHttpGetReader.construct, hfac]
  · intro options url query headers hfac
    refine ⟨?_, ?_⟩ <;> simp [PagedHttpGetReader.construct, hfac]
  · intro options s response hv hfac
    have hred : PagedHttpGetReader.onRequestResponse options s response
        = PagedHttpGetReader.createTransform (PagedHttpGetReader.attachAcceptListeners s) := by
      unfold PagedHttpGetReader.onRequestResponse
      rw [hv]
      dsimp only [JsValue.isBooleanTrue]
      rw [if_pos rfl, hfac]
      simp only [if_true]
    rw [hred]
    refine ⟨?_, ?_, ?_⟩
    · show (PagedHttpGetReader.attachAcceptListeners s).factoryCalls + 1 = s.factoryCalls + 1
      rw [PagedHttpGetReader.attachAcceptListeners_factoryCalls]
    · show some (PagedHttpGetReader.attachAcceptListeners s).transforms.length = _
      rw [PagedHttpGetReader.attachAcceptListeners_transforms]
    · show ((PagedHttpGetReader.attachAcceptListeners s).transforms ++ [_])[s.transforms.length]?
        = _
      rw [PagedHttpGetReader.attachAcceptListeners_transforms]
      rw [List.getElem?_concat_length]
      rw [PagedHttpGetReader.attachAcceptListeners_current]
  · intro options s response v nextPage e c d data
    refine ⟨?_, ?_, ?_, rfl, ?_, ?_, ?_, ?_, ?_, ?_, ?_, ?_, ?_, ?_, ?_, ?_⟩
    · intro hv hb
      unfold PagedHttpGetReader.onRequestResponse
      rw [hv]
      dsimp only
      rw [hb]
      simp only [Bool.false_eq_true, if_false]
      cases hres : v.resolution with
      | fulfilled t =>
        cases t
        · simp [PagedHttpGetReader._startRequest, PagedHttpGetReader.detachFromStreams_factoryCalls]
        · simp [PagedHttpGetReader.pushNull, PagedHttpGetReader.emitError,
            PagedHttpGetReader.detachFromStreams_factoryCalls]
      | rejected e2 =>
        simp [PagedHttpGetReader.pushNull, PagedHttpGetReader.emitError,
          PagedHttpGetReader.detachFromStreams_factoryCalls]
    · intro e2 ht
      unfold PagedHttpGetReader.onRequestResponse
      rw [ht]
      simp [PagedHttpGetReader.pushNull, PagedHttpGetReader.emitError,
        PagedHttpGetReader.detachFromStreams_factoryCalls]
    · intro hfac
      unfold PagedHttpGetReader.onRequestResponse
      cases hh : options.responseHandler response with
      | throws e2 =>
        simp [PagedHttpGetReader.pushNull, PagedHttpGetReader.emitError,
          PagedHttpGetReader.detachFromStreams_factoryCalls]
      | returns v2 =>
        dsimp only
        split
        · rw [hfac]
          simp only [Bool.false_eq_true, if_false]
          exact PagedHttpGetReader.attachAcceptListeners_factoryCalls s
        · cases hres : v2.resolution with
          | fulfilled t =>
            cases t
            · simp [PagedHttpGetReader._startRequest,
                PagedHttpGetReader.detachFromStreams_factoryCalls]
            · simp [PagedHttpGetReader.pushNull, PagedHttpGetReader.emitError,
                PagedHttpGetReader.detachFromStreams_factoryCalls]
          | rejected e2 =>
            simp [PagedHttpGetReader.pushNull, PagedHttpGetReader.emitError,
              PagedHttpGetReader.detachFromStreams_factoryCalls]
    · exact PagedHttpGetReader.detachFromStreams_factoryCalls s
    · exact PagedHttpGetReader.destroy_factoryCalls s
    · exact PagedHttpGetReader.proceedToNextPage_factoryCalls nextPage s data
    · unfold PagedHttpGetReader.onRequestError
      split
      · rfl
      · split
        · exact PagedHttpGetReader.proceedToNextPage_factoryCalls nextPage s none
        · exact PagedHttpGetReader.endCurrentTransform_factoryCalls s
    · unfold PagedHttpGetReader.onRequestClose
      split
      · exact PagedHttpGetReader.proceedToNextPage_factoryCalls nextPage s none
      · exact PagedHttpGetReader.endCurrentTransform_factoryCalls s
    · unfold PagedHttpGetReader.onRequestEnd
      split
      · exact PagedHttpGetReader.proceedToNextPage_factoryCalls nextPage s none
      · exact PagedHttpGetReader.endCurrentTransform_factoryCalls s
    · unfold PagedHttpGetReader.onRequestData
      split <;> rfl
    · unfold PagedHttpGetReader.onTransformError
      split
      · rfl
      · exact PagedHttpGetReader.endCurrentTransform_factoryCalls s
    · exact PagedHttpGetReader.endCurrentTransform_factoryCalls s
    · exact PagedHttpGetReader.proceedToNextPage_factoryCalls nextPage s none
    · rfl
    · exact PagedHttpGetReader.proceedToNextPage_factoryCalls nextPage s (some d)

/-- Witness for C10: constructing with a factory makes exactly one probe
call and stores no live transform; accepting a concrete 200 makes the
second call and attaches a fresh instance piped from request 0. -/
theorem C10_witness :
    demoPagedFactoryFresh.factoryCalls = 1 ∧
    demoPagedFactoryFresh.currentTransform = none ∧
    demoPagedFactoryAccepted.factoryCalls = 2 ∧
    demoPagedFactoryAccepted.currentTransform = some 1 ∧
    demoPagedFactoryAccepted.transforms[1]?
      = some { listeners := { onData := 1, onError := 1, onClose := 1, onEnd := 1, onComplete := 1 }
               ended := false, pipedFrom := some 0 } := by
  have ha := C10_transform_factory.1 pagedFactoryOptions "http://dataplug.io/data/1" none none rfl
  have hb := C10_transform_factory.2.2.1 pagedFactoryOptions demoPagedFactoryInFlight resp200
    rfl rfl
  exact ⟨ha.1, ha.2.1, hb.1, hb.2.1, hb.2.2⟩

end Dataplug
